import Mathlib

/-!
Verification of the resilient orchestration core of the Fire-Emergency-RAG
system against its natural-language specification.

The Lean definitions below are shallow embeddings of the Python source:

* `shared/http_client.py` — `ServiceClient` with its per-service circuit
  breaker (`_is_circuit_breaker_open`, `_record_success`, `_record_failure`)
  and retrying `call_service`;
* `shared/models.py` — the pydantic data models (`Item`, `Environment`,
  `RescueStep`, `RescuePlan`, `RescuePlanRequest`) with their field
  constraints and validators;
* `backend/services/emergency_service.py` — `EmergencyService`
  (`_generate_cache_key`, `_get_cached_result`, `_set_cached_result`,
  `_gather_knowledge_context`, `_validate_request`, `generate_rescue_plan`,
  `_create_fallback_rescue_plan`);
* `backend/services/ollama_service.py` — `OllamaService._parse_rescue_plan_response`.

Conventions: Python `datetime` timestamps are modelled as natural-number
seconds; the outcomes of network calls are supplied by explicit oracle
parameters; Python exceptions are modelled with `Except`; pydantic model
construction is modelled by checked constructors that return `Except`.
-/

namespace FireEmergency

/-! ## Circuit breaker (shared/http_client.py)

`ServiceClient.circuit_breakers[service_name]` is a dict with keys
`state` (`"closed" | "open" | "half-open"`), `failure_count`, and
`last_failure_time`.  We model the entry for a single service; `Option`
distinguishes "no entry yet" from an existing entry, exactly as
`service_name not in self.circuit_breakers` does in the source. -/

inductive BreakerState where
  | closed
  /-- the source's `"open"` state; `open` is a Lean keyword. -/
  | opened
  | halfOpen
deriving DecidableEq, Repr

structure Breaker where
  state : BreakerState
  failureCount : Nat
  /-- `last_failure_time`; `none` models Python `None`, timestamps are seconds. -/
  lastFailureTime : Option Nat
deriving DecidableEq, Repr

/-- The entry created by `_record_success` / `_record_failure` when the
service has no breaker yet: `{"state": "closed", "failure_count": 0,
"last_failure_time": None}`. -/
def Breaker.init : Breaker :=
  { state := .closed, failureCount := 0, lastFailureTime := none }

/-- Configuration of `ServiceClient.__init__`: `max_retries`,
`retry_delay`, `circuit_breaker_threshold`, `circuit_breaker_timeout`.
The source defaults are 3, 1.0 s, 5 and 60.0 s. -/
structure ClientConfig where
  maxRetries : Nat
  retryDelay : Nat
  threshold : Nat
  cbTimeout : Nat
deriving Repr

def ClientConfig.default : ClientConfig :=
  { maxRetries := 3, retryDelay := 1, threshold := 5, cbTimeout := 60 }

/-- `ServiceClient._is_circuit_breaker_open`, for one service.  Returns the
boolean result together with the (possibly mutated) breaker entry: when the
state is `open` and `utcnow() - last_failure_time > timedelta(seconds=
circuit_breaker_timeout)` the entry is switched to `half-open` with
`failure_count = 0` and the check returns `False`.

In the source, `last_failure_time` can only be `None` while the state is
`closed` (see `openImpliesTimestamp` below); on that dead branch Python
would raise a `TypeError`, which we model as the check returning `true`
(the call is refused). -/
def isBreakerOpen (cfg : ClientConfig) (now : Nat) :
    Option Breaker → Bool × Option Breaker
  | none => (false, none)
  | some b =>
    if b.state = .opened then
      match b.lastFailureTime with
      | some t =>
        if now - t > cfg.cbTimeout then
          (false, some { state := .halfOpen, failureCount := 0, lastFailureTime := some t })
        else
          (true, some b)
      | none => (true, some b)
    else
      (false, some b)

/-- `ServiceClient._record_success`: initialise the entry if missing, switch
`half-open` to `closed`, reset `failure_count` to 0. -/
def recordSuccess : Option Breaker → Breaker
  | ob =>
    let b := ob.getD Breaker.init
    let b := if b.state = .halfOpen then { b with state := .closed } else b
    { b with failureCount := 0 }

/-- `ServiceClient._record_failure`: initialise the entry if missing,
increment `failure_count`, set `last_failure_time`, and open the breaker
when `failure_count >= circuit_breaker_threshold`. -/
def recordFailure (cfg : ClientConfig) (now : Nat) : Option Breaker → Breaker
  | ob =>
    let b := ob.getD Breaker.init
    let b := { b with failureCount := b.failureCount + 1, lastFailureTime := some now }
    if cfg.threshold ≤ b.failureCount then { b with state := .opened } else b

/-! ## `ServiceClient.call_service`

One invocation performs up to `max_retries + 1` attempts.  The outcome of
the `httpx` request of attempt `i` is supplied by an oracle
`attempts : Nat → Attempt`. -/

/-- Outcome of one `self.client.request(...)` call: the raised exception,
or a response with its HTTP status code (the body is irrelevant to the
claims and elided). -/
inductive Attempt where
  | timeoutExc
  | connectExc
  | httpExc
  | otherExc
  | response (status : Nat)
deriving DecidableEq, Repr

/-- The error kinds `call_service` can raise. -/
inductive CallError where
  /-- `ServiceUnavailableError` — breaker open, or `httpx.ConnectError`. -/
  | unavailable
  /-- `ServiceTimeoutError`. -/
  | timeout
  /-- `ServiceCommunicationError` — non-2xx response, other `httpx.HTTPError`,
  or any other exception. -/
  | communication
deriving DecidableEq, Repr

/-- Result of one `call_service` invocation, for one service: the returned
value (the status of the successful response) or the raised error, the
breaker entry afterwards, the `asyncio.sleep` backoff durations issued, and
how many network attempts were made. -/
structure CallResult where
  result : Except CallError Nat
  breaker : Option Breaker
  sleeps : List Nat
  attemptsMade : Nat
deriving Repr

/-- The `last_exception` stored by the handler that catches the outcome of
one attempt: `httpx.TimeoutException → ServiceTimeoutError`,
`httpx.ConnectError → ServiceUnavailableError`, other `httpx.HTTPError`
and any other exception → `ServiceCommunicationError`; a response with
status `>= 400` raises `ServiceCommunicationError` inside the `try`, which
the generic `except Exception` handler also stores. -/
def attemptError : Attempt → CallError
  | .timeoutExc => .timeout
  | .connectExc => .unavailable
  | .httpExc => .communication
  | .otherExc => .communication
  | .response _ => .communication

/-- The retry loop `for attempt in range(self.max_retries + 1)`, starting at
attempt index `i` with `fuel` attempts left.  Mirrors the source order:
the request outcome is inspected; a received response first triggers
`_record_success`, then a status `>= 400` raises
`ServiceCommunicationError` (caught by the generic handler of the loop);
before every non-final attempt the client sleeps
`retry_delay * (2 ** attempt)`.  After the loop, `_record_failure` runs
once (with the failure timestamp modelled by the same `now`) and the last
exception is raised. -/
def callLoop (cfg : ClientConfig) (now : Nat) (attempts : Nat → Attempt) :
    Nat → Nat → Option Breaker → List Nat → Nat → CallResult
  | _, 0, b, sleeps, made =>
      -- loop exhausted without entering: `_record_failure`, then the generic
      -- `ServiceCommunicationError("服务 ... 调用失败")` raise
      { result := .error .communication, breaker := some (recordFailure cfg now b),
        sleeps := sleeps, attemptsMade := made }
  | i, fuel + 1, b, sleeps, made =>
    match attempts i with
    | .response status =>
      if status < 400 then
        { result := .ok status, breaker := some (recordSuccess b),
          sleeps := sleeps, attemptsMade := made + 1 }
      else if fuel = 0 then
        { result := .error .communication,
          breaker := some (recordFailure cfg now (some (recordSuccess b))),
          sleeps := sleeps, attemptsMade := made + 1 }
      else
        callLoop cfg now attempts (i + 1) fuel (some (recordSuccess b))
          (sleeps ++ [cfg.retryDelay * 2 ^ i]) (made + 1)
    | a =>
      if fuel = 0 then
        { result := .error (attemptError a), breaker := some (recordFailure cfg now b),
          sleeps := sleeps, attemptsMade := made + 1 }
      else
        callLoop cfg now attempts (i + 1) fuel b
          (sleeps ++ [cfg.retryDelay * 2 ^ i]) (made + 1)

/-- `ServiceClient.call_service` for one service: the breaker check (which
may move an expired `open` entry to `half-open`), then the retry loop. -/
def callService (cfg : ClientConfig) (now : Nat) (attempts : Nat → Attempt)
    (b : Option Breaker) : CallResult :=
  let (isOpen, b') := isBreakerOpen cfg now b
  if isOpen then
    { result := .error .unavailable, breaker := b', sleeps := [], attemptsMade := 0 }
  else
    callLoop cfg now attempts 0 (cfg.maxRetries + 1) b' [] 0

/-- An attempt outcome that is a raised exception (not a received response). -/
def Attempt.isExc : Attempt → Bool
  | .response _ => false
  | _ => true

/-- An attempt outcome on which the attempt's `try` body raises: a raised
exception, or a received response with status `>= 400` (the source's
boundary is `status_code >= 400`, so a 3xx response is recorded as a
success and returned). -/
def Attempt.fails : Attempt → Bool
  | .response s => decide (400 ≤ s)
  | _ => true

/-- The breaker entry after the first `n` attempts of the retry loop,
starting at attempt index `i`: every received response records a success
(`_record_success` runs before the status check), while a raised exception
leaves the entry unchanged. -/
def successThread (attempts : Nat → Attempt) : Nat → Nat → Option Breaker → Option Breaker
  | _, 0, b => b
  | i, n + 1, b =>
    successThread attempts (i + 1) n
      (match attempts i with
       | .response _ => some (recordSuccess b)
       | _ => b)

/-! ## JSON values and Python `json.dumps`

`_generate_cache_key` serialises the request with
`json.dumps(request_data, sort_keys=True, ensure_ascii=False)` and hashes
the result; `_gather_knowledge_context` measures sections with plain
`json.dumps(x, ensure_ascii=False)`.  `Json` models the Python values
involved (numbers are the `int`s occurring in these models). -/

inductive Json where
  | null
  | bool (b : Bool)
  | num (n : Int)
  | str (s : String)
  | arr (elements : List Json)
  | obj (fields : List (String × Json))

/-- Decimal digits of `n`, least significant first, computed with explicit
fuel so that it reduces in the kernel; agrees with `Nat.digits 10`
(`natDigitsAux_eq_digits`). -/
def natDigitsAux : Nat → Nat → List Nat
  | 0, _ => []
  | _ + 1, 0 => []
  | fuel + 1, n + 1 => (n + 1) % 10 :: natDigitsAux fuel ((n + 1) / 10)

def digitChar (d : Nat) : Char := Char.ofNat (48 + d)

/-- Python's decimal rendering of a non-negative `int`. -/
def natRepr (n : Nat) : String :=
  if n = 0 then "0" else ⟨((natDigitsAux n n).reverse.map digitChar)⟩

/-- Python's decimal rendering of an `int`. -/
def intRepr (i : Int) : String :=
  if i < 0 then "-" ++ natRepr (-i).toNat else natRepr i.toNat

def hexDigit (n : Nat) : Char :=
  if n < 10 then Char.ofNat (48 + n) else Char.ofNat (87 + n)

/-- Escapes of `json.dumps(..., ensure_ascii=False)` for one character:
quote, backslash, the named control escapes, `\u00XX` for the remaining
control characters; everything else (including non-ASCII) is kept. -/
def escapeChar (c : Char) : List Char :=
  if c = '"' then ['\\', '"']
  else if c = '\\' then ['\\', '\\']
  else if c = '\n' then ['\\', 'n']
  else if c = '\r' then ['\\', 'r']
  else if c = '\t' then ['\\', 't']
  else if c = '\x08' then ['\\', 'b']
  else if c = '\x0c' then ['\\', 'f']
  else if c.toNat < 32 then
    ['\\', 'u', '0', '0', hexDigit (c.toNat / 16), hexDigit (c.toNat % 16)]
  else [c]

def escapeStr (s : String) : String := ⟨s.data.flatMap escapeChar⟩

mutual

/-- `json.dumps(..., ensure_ascii=False)` with the default separators
`", "` and `": "` and no key sorting. -/
def serialize : Json → String
  | .null => "null"
  | .bool true => "true"
  | .bool false => "false"
  | .num n => intRepr n
  | .str s => "\"" ++ escapeStr s ++ "\""
  | .arr xs => "[" ++ serializeList xs ++ "]"
  | .obj fs => "\x7b" ++ serializeFields fs ++ "\x7d"

def serializeList : List Json → String
  | [] => ""
  | [j] => serialize j
  | j :: j2 :: rest => serialize j ++ ", " ++ serializeList (j2 :: rest)

def serializeFields : List (String × Json) → String
  | [] => ""
  | [(k, v)] => "\"" ++ escapeStr k ++ "\": " ++ serialize v
  | (k, v) :: f :: rest =>
    "\"" ++ escapeStr k ++ "\": " ++ serialize v ++ ", " ++ serializeFields (f :: rest)

end

/-- Code-point comparison of character lists — the lexicographic string
order Python uses when `json.dumps(sort_keys=True)` sorts `dict` keys. -/
def charListLe : List Char → List Char → Bool
  | [], _ => true
  | _ :: _, [] => false
  | a :: as, b :: bs =>
    if a.toNat < b.toNat then true
    else if b.toNat < a.toNat then false
    else charListLe as bs

def strLe (s t : String) : Bool := charListLe s.data t.data

def strLt (s t : String) : Bool := strLe s t && !(s = t)

/-- Ordering of object fields by key. -/
def keyRel (a b : String × Json) : Prop := strLe a.1 b.1 = true

instance : DecidableRel keyRel := fun a b => by unfold keyRel; infer_instance

/-- Strict ordering of object fields by key. -/
def keyRelStrict (a b : String × Json) : Prop := strLt a.1 b.1 = true

def sortFields (fs : List (String × Json)) : List (String × Json) :=
  List.insertionSort keyRel fs

mutual

/-- Recursively sort every object's fields by key — the effect of
`sort_keys=True` on the emitted structure. -/
def canonicalize : Json → Json
  | .null => .null
  | .bool b => .bool b
  | .num n => .num n
  | .str s => .str s
  | .arr xs => .arr (canonList xs)
  | .obj fs => .obj (sortFields (canonFields fs))

def canonList : List Json → List Json
  | [] => []
  | j :: rest => canonicalize j :: canonList rest

def canonFields : List (String × Json) → List (String × Json)
  | [] => []
  | (k, v) :: rest => (k, canonicalize v) :: canonFields rest

end

/-- `json.dumps(x, sort_keys=True, ensure_ascii=False)`. -/
def dumpsCanon (j : Json) : String := serialize (canonicalize j)

/-- Python truthiness of a JSON value (`None`, `False`, `0`, `""`, `[]`
and `{}` are falsy). -/
def jsonTruthy : Json → Bool
  | .null => false
  | .bool b => b
  | .num n => !(n = 0 : Bool)
  | .str s => !s.data.isEmpty
  | .arr xs => !xs.isEmpty
  | .obj fs => !fs.isEmpty

/-- Lookup in a Python `dict` modelled as an association list (the dicts
handled here come from JSON bodies, so keys are unique). -/
def lookupField : List (String × Json) → String → Option Json
  | [], _ => none
  | (k, v) :: rest, key => if k = key then some v else lookupField rest key

/-- `result.get(key)`: `None` when absent, `AttributeError` (modelled as
`.error`) when the value is not a dict. -/
def jget (j : Json) (k : String) : Except Unit (Option Json) :=
  match j with
  | .obj fs => .ok (lookupField fs k)
  | _ => .error ()

/-- `result[key]`: `KeyError`/`TypeError` (modelled as `.error`) when the
key is missing or the value is not a dict. -/
def jindex (j : Json) (k : String) : Except Unit Json :=
  match jget j k with
  | .ok (some v) => .ok v
  | _ => .error ()

/-! ## Data models (shared/models.py)

The pydantic models, with enum values as in the source.  `id`, `status`
and timestamp fields (`created_at`, `updated_at`) are generated metadata
and are not part of any claim, so they are elided. -/

inductive ItemMaterial where
  | wood | metal | plastic | glass | ceramic | fabric | leather | electronic | chemical | other
deriving DecidableEq, Repr

def ItemMaterial.value : ItemMaterial → String
  | .wood => "木质"
  | .metal => "金属"
  | .plastic => "塑料"
  | .glass => "玻璃"
  | .ceramic => "陶瓷"
  | .fabric => "布料"
  | .leather => "皮革"
  | .electronic => "电子"
  | .chemical => "化学"
  | .other => "其他"

inductive FlammabilityLevel where
  | nonFlammable | difficultFlammable | flammable | highlyFlammable
deriving DecidableEq, Repr

def FlammabilityLevel.value : FlammabilityLevel → String
  | .nonFlammable => "不燃"
  | .difficultFlammable => "难燃"
  | .flammable => "易燃"
  | .highlyFlammable => "极易燃"

inductive ToxicityLevel where
  | nonToxic | lowToxic | mediumToxic | highToxic | extremelyToxic
deriving DecidableEq, Repr

def ToxicityLevel.value : ToxicityLevel → String
  | .nonToxic => "无毒"
  | .lowToxic => "低毒"
  | .mediumToxic => "中毒"
  | .highToxic => "高毒"
  | .extremelyToxic => "剧毒"

inductive EnvironmentType where
  | indoor | outdoor | semiOutdoor
deriving DecidableEq, Repr

def EnvironmentType.value : EnvironmentType → String
  | .indoor => "室内"
  | .outdoor => "室外"
  | .semiOutdoor => "半室外"

inductive AreaType where
  | residential | commercial | industrial | publicBuilding | vehicle | warehouse | laboratory | other
deriving DecidableEq, Repr

def AreaType.value : AreaType → String
  | .residential => "住宅"
  | .commercial => "商业"
  | .industrial => "工业"
  | .publicBuilding => "公共建筑"
  | .vehicle => "交通工具"
  | .warehouse => "仓库"
  | .laboratory => "实验室"
  | .other => "其他"

inductive VentilationLevel where
  | excellent | good | poor | veryPoor
deriving DecidableEq, Repr

def VentilationLevel.value : VentilationLevel → String
  | .excellent => "良好"
  | .good => "一般"
  | .poor => "较差"
  | .veryPoor => "很差"

inductive PriorityLevel where
  | low | medium | high | urgent
deriving DecidableEq, Repr

def PriorityLevel.value : PriorityLevel → String
  | .low => "低"
  | .medium => "中"
  | .high => "高"
  | .urgent => "紧急"

/-- `Item` (`shared/models.py`): `size` and `weight` are free-form
`Dict[str, Any]`, modelled as JSON values. -/
structure Item where
  name : String
  material : ItemMaterial
  quantity : Int
  location : String
  condition : Option String
  flammability : Option FlammabilityLevel
  toxicity : Option ToxicityLevel
  size : Option Json
  weight : Option Json

structure Environment where
  type : EnvironmentType
  area : AreaType
  floor : Option Int
  ventilation : VentilationLevel
  exits : Int
  occupancy : Option Int
  building_type : Option String
  fire_safety_equipment : Option (List String)
  special_conditions : Option String

/-- `RescuePlanRequest` (`shared/models.py`); `contact_info` is a free-form
dict. -/
structure RescuePlanRequest where
  items : List Item
  environment : Environment
  additional_info : Option String
  urgency_level : String
  contact_info : Option Json
  user_id : Option String

def optStr : Option String → Json
  | none => .null
  | some s => .str s

def optNum : Option Int → Json
  | none => .null
  | some n => .num n

def optJson : Option Json → Json
  | none => .null
  | some j => j

def optStrList : Option (List String) → Json
  | none => .null
  | some l => .arr (l.map .str)

def optFlamJson : Option FlammabilityLevel → Json
  | none => .null
  | some f => .str f.value

def optToxJson : Option ToxicityLevel → Json
  | none => .null
  | some t => .str t.value

/-- `item.model_dump()`: the item's fields, in declaration order, with enum
members rendered as their string values (the enums subclass `str`). -/
def itemJson (it : Item) : Json :=
  .obj [("name", .str it.name),
        ("material", .str it.material.value),
        ("quantity", .num it.quantity),
        ("location", .str it.location),
        ("condition", optStr it.condition),
        ("flammability", optFlamJson it.flammability),
        ("toxicity", optToxJson it.toxicity),
        ("size", optJson it.size),
        ("weight", optJson it.weight)]

/-- `request.environment.model_dump()`. -/
def envJson (e : Environment) : Json :=
  .obj [("type", .str e.type.value),
        ("area", .str e.area.value),
        ("floor", optNum e.floor),
        ("ventilation", .str e.ventilation.value),
        ("exits", .num e.exits),
        ("occupancy", optNum e.occupancy),
        ("building_type", optStr e.building_type),
        ("fire_safety_equipment", optStrList e.fire_safety_equipment),
        ("special_conditions", optStr e.special_conditions)]

/-- The `request_data` dict assembled by `_generate_cache_key`: items,
environment, additional info and urgency level — `contact_info` and
`user_id` are not included. -/
def requestData (r : RescuePlanRequest) : Json :=
  .obj [("items", .arr (r.items.map itemJson)),
        ("environment", envJson r.environment),
        ("additional_info", optStr r.additional_info),
        ("urgency_level", .str r.urgency_level)]

/-- `EmergencyService._generate_cache_key`: the MD5 hex digest (an external
library routine, passed in as `md5`) of the canonical serialization,
prefixed with the cache namespace. -/
def generateCacheKey (md5 : String → String) (r : RescuePlanRequest) : String :=
  "emergency:rescue_plan:" ++ md5 (dumpsCanon (requestData r))

/-! ## Validation and priorities -/

/-- Python `str.strip()` whitespace (the common whitespace characters;
the source only tests the result for emptiness). -/
def isPySpace (c : Char) : Bool :=
  c = ' ' || c = '\t' || c = '\n' || c = '\r' || c = '\x0b' || c = '\x0c'

/-- Python `str.strip()`. -/
def pyStrip (s : String) : String :=
  ⟨((s.data.dropWhile isPySpace).reverse.dropWhile isPySpace).reverse⟩

/-- The per-item checks of `EmergencyService._validate_request`, in source
order; errors are the `ValidationError` messages. -/
def validateItem (it : Item) : Except String Unit :=
  if pyStrip it.name = "" then .error "物品名称不能为空"
  else if it.quantity ≤ 0 then .error "物品数量必须大于0"
  else if pyStrip it.location = "" then .error "物品位置不能为空"
  else .ok ()

/-- `EmergencyService._validate_request`: the empty/oversized checks, the
per-item loop (first failing check raises), then the environment checks. -/
def validateRequest (r : RescuePlanRequest) : Except String Unit :=
  if r.items.isEmpty then .error "物品列表不能为空"
  else if 50 < r.items.length then .error "物品数量不能超过50个"
  else match r.items.forM validateItem with
  | .error e => .error e
  | .ok _ =>
    if r.environment.exits ≤ 0 then .error "出口数量必须大于0"
    else match r.environment.occupancy with
    | some occ => if occ < 0 then .error "人员数量不能为负数" else .ok ()
    | none => .ok ()

/-- The data-model constraints of `RescuePlanRequest` that C10 assumes:
1–50 items; each item has quantity ≥ 1 and stripped non-empty name and
location (pydantic stores names/locations stripped and non-empty);
`exits ≥ 1`; `occupancy ≥ 0` when present. -/
def RequestSatisfiesModel (r : RescuePlanRequest) : Prop :=
  1 ≤ r.items.length ∧ r.items.length ≤ 50 ∧
  (∀ it ∈ r.items, pyStrip it.name ≠ "" ∧ 1 ≤ it.quantity ∧ pyStrip it.location ≠ "") ∧
  1 ≤ r.environment.exits ∧
  (∀ occ, r.environment.occupancy = some occ → 0 ≤ occ)

/-- The urgency→priority mapping of
`EmergencyService._create_fallback_rescue_plan` (lines 459–464). -/
def fallbackPriority (urgency : String) : PriorityLevel :=
  if urgency = "紧急" ∨ urgency = "非常紧急" then .urgent
  else if urgency = "低" ∨ urgency = "一般" then .low
  else .medium

/-- The urgency→priority mapping of
`OllamaService._parse_rescue_plan_response` (lines 560–565). -/
def parserPriority (urgency : String) : PriorityLevel :=
  if urgency = "低" ∨ urgency = "一般" then .medium
  else if urgency = "紧急" ∨ urgency = "非常紧急" then .urgent
  else .high

/-! ## Knowledge aggregation (emergency_service.py: `_gather_knowledge_context`)

The outcomes of the fanned-out service calls are supplied by an oracle.
`KnowledgeContext` mirrors the pydantic model (default: all sections empty,
`total_context_size = 0`). -/

/-- Outcome of one awaited `_call_service` coroutine: the exception it
raised, or the parsed JSON body it returned. -/
inductive CallOut where
  | raise
  | ret (j : Json)

structure KnowledgeContext where
  material_knowledge : List (String × Json)
  environment_knowledge : List (String × Json)
  rescue_procedures : List Json
  rag_context : List Json
  total_context_size : Nat

/-- `KnowledgeContext()` — all pydantic defaults. -/
def KnowledgeContext.empty : KnowledgeContext :=
  { material_knowledge := [], environment_knowledge := [],
    rescue_procedures := [], rag_context := [], total_context_size := 0 }

/-- Outcomes of the fanned-out lookups: per-item primary material lookup
(`GET /materials/{en}`), per-item fallback search
(`GET /materials/search/{zh}`), the environment lookup, the procedures
lookup, and the per-item retrieval search. -/
structure GatherOutcomes where
  matPrimary : Nat → CallOut
  matFallback : Nat → CallOut
  env : CallOut
  procedures : CallOut
  rag : Nat → CallOut

/-- The per-item material task (`fetch_material`): primary lookup, on any
exception the keyword-search fallback, on a second exception
`{"success": False}` — this task never raises. -/
def materialResult (o : GatherOutcomes) (i : Nat) : Json :=
  match o.matPrimary i with
  | .ret j => j
  | .raise =>
    match o.matFallback i with
    | .ret j => j
    | .raise => .obj [("success", .bool false)]

/-- `fetch_environment`: the lookup, with any exception folded into
`{"success": False}` — never raises. -/
def envResult (o : GatherOutcomes) : Json :=
  match o.env with
  | .ret j => j
  | .raise => .obj [("success", .bool false)]

def optTruthy : Option Json → Bool
  | none => false
  | some j => jsonTruthy j

def isObjJson : Json → Bool
  | .obj _ => true
  | _ => false

/-- Python dict assignment `d[k] = v` on an association list: overwrite in
place or append. -/
def dictSet : List (String × Json) → String → Json → List (String × Json)
  | [], k, v => [(k, v)]
  | (k0, v0) :: rest, k, v =>
    if k0 = k then (k0, v) :: rest else (k0, v0) :: dictSet rest k v

/-- The material merge loop, over the per-item material-task results
(`mats i` is the body `fetch_material` produced for item `i`): if the
result is truthy on `"success"`, store `result["data"]` under the item's
material value.  `.error` models the exceptions the loop can raise
(`.get` on a non-dict, missing `"data"`), which the outer handler turns
into an empty context. -/
def mergeMaterialsAux (mats : Nat → Json) :
    Nat → List Item → List (String × Json) → Except Unit (List (String × Json))
  | _, [], acc => .ok acc
  | i, it :: rest, acc =>
    match jget (mats i) "success" with
    | .error _ => .error ()
    | .ok sv =>
      if optTruthy sv then
        match jindex (mats i) "data" with
        | .error _ => .error ()
        | .ok d => mergeMaterialsAux mats (i + 1) rest (dictSet acc it.material.value d)
      else mergeMaterialsAux mats (i + 1) rest acc

/-- The environment merge, over the body the environment task produced:
`{}` unless the result is truthy on `"success"`, in which case
`result["data"]` — which the `KnowledgeContext` model requires to be a
dict (`.error` models the pydantic rejection). -/
def envSectionE (e : Json) : Except Unit (List (String × Json)) :=
  match jget e "success" with
  | .error _ => .error ()
  | .ok sv =>
    if optTruthy sv then
      match jindex e "data" with
      | .error _ => .error ()
      | .ok (.obj fs) => .ok fs
      | .ok _ => .error ()
    else .ok []

/-- The procedures merge, applied to the body returned by the (unguarded)
procedures task: `[]` unless truthy on `"success"`, else `p["data"]`,
which must be a list of dicts (`List[Dict]` in the model). -/
def procSectionE (p : Json) : Except Unit (List Json) :=
  match jget p "success" with
  | .error _ => .error ()
  | .ok sv =>
    if optTruthy sv then
      match jindex p "data" with
      | .error _ => .error ()
      | .ok (.arr xs) => if xs.all isObjJson then .ok xs else .error ()
      | .ok _ => .error ()
    else .ok []

/-- The RAG merge loop over `asyncio.gather(..., return_exceptions=True)`
results: exceptions are skipped; a truthy result contributes the elements
of `result["data"]` (which must be a list of dicts). -/
def ragSectionAux (ragf : Nat → CallOut) :
    Nat → Nat → List Json → Except Unit (List Json)
  | _, 0, acc => .ok acc
  | i, n + 1, acc =>
    match ragf i with
    | .raise => ragSectionAux ragf (i + 1) n acc
    | .ret r =>
      match jget r "success" with
      | .error _ => .error ()
      | .ok sv =>
        if optTruthy sv then
          match jindex r "data" with
          | .error _ => .error ()
          | .ok (.arr xs) =>
            if xs.all isObjJson then ragSectionAux ragf (i + 1) n (acc ++ xs) else .error ()
          | .ok _ => .error ()
        else ragSectionAux ragf (i + 1) n acc

/-- `total_context_size`: the summed lengths of the four plain
`json.dumps(..., ensure_ascii=False)` serializations. -/
def sectionSize (mat env : List (String × Json)) (procs rag : List Json) : Nat :=
  (serialize (.obj mat)).length + (serialize (.obj env)).length +
  (serialize (.arr procs)).length + (serialize (.arr rag)).length

/-- The body of `_gather_knowledge_context`s `try` block: the material and
environment tasks cannot raise; the unguarded `procedures_task` await
re-raises its exception; then the four merges run and the context is
built. -/
def gatherBody (items : List Item) (o : GatherOutcomes) : Except Unit KnowledgeContext :=
  match o.procedures with
  | .raise => .error ()
  | .ret p =>
    match mergeMaterialsAux (materialResult o) 0 items [] with
    | .error e => .error e
    | .ok mat =>
      match envSectionE (envResult o) with
      | .error e => .error e
      | .ok env =>
        match procSectionE p with
        | .error e => .error e
        | .ok procs =>
          match ragSectionAux o.rag 0 items.length [] with
          | .error e => .error e
          | .ok rag =>
            .ok { material_knowledge := mat, environment_knowledge := env,
                  rescue_procedures := procs, rag_context := rag,
                  total_context_size := sectionSize mat env procs rag }

/-- `_gather_knowledge_context` including its `except Exception` handler,
which returns `KnowledgeContext()`; the `Except` return type records that
no exception can escape to the caller. -/
def gatherTry (items : List Item) (o : GatherOutcomes) : Except Unit KnowledgeContext :=
  match gatherBody items o with
  | .ok c => .ok c
  | .error _ => .ok KnowledgeContext.empty

/-- The returned context. -/
def gatherKnowledgeContext (items : List Item) (o : GatherOutcomes) : KnowledgeContext :=
  match gatherBody items o with
  | .ok c => c
  | .error _ => KnowledgeContext.empty

/-- Every lookup fails (raises / times out). -/
def AllLookupsFail (o : GatherOutcomes) : Prop :=
  (∀ i, o.matPrimary i = .raise) ∧ (∀ i, o.matFallback i = .raise) ∧
  o.env = .raise ∧ o.procedures = .raise ∧ (∀ i, o.rag i = .raise)

/-! ## Rescue plans (shared/models.py) and the cache operations -/

/-- `RescueStep`; `step_number` is the parser's 1-based counter. -/
structure RescueStep where
  step_number : Nat
  description : String
  equipment : List String
  warnings : List String
  estimated_time : Option Nat
deriving DecidableEq, Repr

/-- `RescuePlan`; the generated-metadata fields (`id`, `status`,
`created_at`, `updated_at`) are elided. -/
structure RescuePlan where
  title : String
  priority : PriorityLevel
  steps : List RescueStep
  equipment_list : List String
  warnings : List String
  estimated_duration : Nat
deriving DecidableEq, Repr

/-- Pydantic construction of `RescueStep`: `step_number >= 1`,
`description` of length 1–500 and non-blank (stored stripped),
`estimated_time` in 1–1440 when present. -/
def mkRescueStep (n : Nat) (desc : String) (equip warn : List String)
    (time : Option Nat) : Except Unit RescueStep :=
  if 1 ≤ n ∧ 1 ≤ desc.length ∧ desc.length ≤ 500 ∧ pyStrip desc ≠ "" ∧
      (∀ t ∈ time, 1 ≤ t ∧ t ≤ 1440) then
    .ok { step_number := n, description := pyStrip desc, equipment := equip,
          warnings := warn, estimated_time := time }
  else .error ()

/-- Pydantic construction of `RescuePlan`: title of length 1–200 and
non-blank (stored stripped), at least one step with step numbers exactly
`1..N` (`validate_steps`), duration in 1–1440. -/
def mkRescuePlan (title : String) (priority : PriorityLevel) (steps : List RescueStep)
    (equipment_list warnings : List String) (duration : Nat) : Except Unit RescuePlan :=
  if 1 ≤ title.length ∧ title.length ≤ 200 ∧ pyStrip title ≠ "" ∧
      steps ≠ [] ∧ steps.map (fun s => s.step_number) = List.range' 1 steps.length ∧
      1 ≤ duration ∧ duration ≤ 1440 then
    .ok { title := pyStrip title, priority := priority, steps := steps,
          equipment_list := equipment_list, warnings := warnings,
          estimated_duration := duration }
  else .error ()

/-- Python `list(set(xs))` for strings.  CPython's set iteration order is
unspecified (hash-dependent); we model it as first-occurrence
deduplication — no claim depends on the order. -/
def pyListSet (l : List String) : List String := l.eraseDups

/-- `EmergencyService._get_cached_result` for one call, with the outcome of
the cache-service request and the `RescuePlan(**data)` decoder supplied.
Returns `(value, cache_enabled after, whether a request was issued)`:
disabled short-circuits; any exception (transport, non-dict body, decode)
is caught and latches `cache_enabled := False`. -/
def getCachedResult (decode : Json → Except Unit RescuePlan) (out : CallOut)
    (enabled : Bool) : Option RescuePlan × Bool × Bool :=
  if enabled then
    match out with
    | .raise => (none, false, true)
    | .ret j =>
      match jget j "success" with
      | .error _ => (none, false, true)
      | .ok sv =>
        if optTruthy sv then
          match jget j "data" with
          | .error _ => (none, false, true)
          | .ok dv =>
            match dv with
            | some d =>
              if jsonTruthy d then
                match decode d with
                | .ok plan => (some plan, true, true)
                | .error _ => (none, false, true)
              else (none, true, true)
            | none => (none, true, true)
        else (none, true, true)
  else (none, false, false)

/-- `EmergencyService._set_cached_result` for one call: returns
`(cache_enabled after, whether a request was issued)`. -/
def setCachedResult (out : CallOut) (enabled : Bool) : Bool × Bool :=
  if enabled then
    match out with
    | .raise => (false, true)
    | .ret _ => (true, true)
  else (false, false)

/-- One cache operation of the process lifetime, with its oracle data. -/
inductive CacheOp where
  | get (out : CallOut) (decode : Json → Except Unit RescuePlan)
  | set (out : CallOut)

/-- Fold a sequence of cache operations over the `cache_enabled` flag;
returns the final flag and, per operation, whether it issued a request. -/
def runCacheOps : Bool → List CacheOp → Bool × List Bool
  | en, [] => (en, [])
  | en, .get out decode :: rest =>
    let r := getCachedResult decode out en
    let f := runCacheOps r.2.1 rest
    (f.1, r.2.2 :: f.2)
  | en, .set out :: rest =>
    let r := setCachedResult out en
    let f := runCacheOps r.1 rest
    (f.1, r.2 :: f.2)

/-! ## The coordinator (emergency_service.py: `generate_rescue_plan`) -/

/-- Errors that can escape `generate_rescue_plan`: a `ValidationError`, or
an exception raised by the `except`-handler itself (shown unreachable). -/
inductive GenError where
  | validation (msg : String)
  | internalEscape
deriving Repr

/-- Oracle for one `generate_rescue_plan` run: the outcomes of the cache
lookup, knowledge lookups, generation call and cache write, plus the
pydantic decoders for the two `RescuePlan(**data)` constructions. -/
structure GenerateOracle where
  cacheGet : CallOut
  cacheDecode : Json → Except Unit RescuePlan
  gather : GatherOutcomes
  ollama : CallOut
  ollamaDecode : Json → Except Unit RescuePlan
  cacheSet : CallOut

/-- `_create_fallback_rescue_plan`: the fixed four-step template, with the
priority mapping of the fallback synthesizer, built through the pydantic
constructors. -/
def createFallbackRescuePlan (r : RescuePlanRequest) : Except Unit RescuePlan := do
  let s1 ← mkRescueStep 1
    "立即拨打119报警，启动应急预案，组织现场人员按疏散路线有序撤离，同时关闭电源和燃气阀门，防止火势蔓延"
    ["手机或对讲机", "应急照明灯", "扩音器", "防烟面罩", "疏散指示牌"]
    ["确保所有人员安全撤离，优先疏散老人、儿童和行动不便者",
     "保持冷静，不要惊慌，避免发生踩踏事故",
     "不要使用电梯，选择楼梯疏散",
     "低姿前进，用湿毛巾捂住口鼻"] (some 5)
  let s2 ← mkRescueStep 2
    "专业消防人员到达前，使用现场灭火器材进行初期火灾扑救，切断火势蔓延路径，重点保护重要设施和疏散通道"
    ["干粉灭火器", "二氧化碳灭火器", "消防水带", "防火毯", "防护服", "消防斧"]
    ["选择合适的灭火器材，电器火灾不能用水扑救",
     "注意风向，站在上风位置进行灭火",
     "保持安全距离，火势较大时应立即撤离",
     "不要贸然进入浓烟区域，避免中毒窒息"] (some 10)
  let s3 ← mkRescueStep 3
    "引导所有人员按照疏散指示标志撤离到安全区域，在集合点清点人数，确认无人员滞留，及时向消防队报告现场情况"
    ["应急灯", "对讲机", "急救箱", "警戒带", "人员名册", "扩音设备"]
    ["到达安全区域后立即清点人数，确认无人员失踪",
     "如发现有人员未撤出，立即通知消防救援人员",
     "不要返回火场取物品，避免二次伤害",
     "对受伤人员进行紧急救护，等待医疗救援"] (some 5)
  let s4 ← mkRescueStep 4
    "等待消防队确认火势完全扑灭，使用热成像仪检查是否有隐藏火点，清理现场残留危险物品，评估损失并做好现场保护工作"
    ["热成像仪", "清理工具", "警戒标识", "照明设备", "相机或摄像机", "检测仪器"]
    ["等待消防队确认安全后再进入现场",
     "确保无复燃风险，检查所有可能的隐患点",
     "注意建筑结构稳定性，防止次生灾害",
     "做好现场保护和证据留存工作，配合后续调查"] (some 15)
  let steps := [s1, s2, s3, s4]
  mkRescuePlan ("火灾应急救援方案 - " ++ r.environment.area.value)
    (fallbackPriority r.urgency_level) steps
    (pyListSet (steps.flatMap (fun s => s.equipment)))
    (pyListSet (steps.flatMap (fun s => s.warnings)))
    (steps.foldl (fun acc s => acc + s.estimated_time.getD 0) 0)

/-- The `try` block of `generate_rescue_plan` after a cache miss: gather
(total), generation call, `success` check (a false value raises
`ServiceError` inside the same `try`), `RescuePlan(**data)`, best-effort
cache write.  Returns the plan and the `cache_enabled` flag after the
write. -/
def tryGenerate (o : GenerateOracle) (r : RescuePlanRequest) (en : Bool) :
    Except Unit (RescuePlan × Bool) := do
  let _ctx := gatherKnowledgeContext r.items o.gather
  let resp ← match o.ollama with
    | .raise => Except.error ()
    | .ret j => Except.ok j
  let sv ← jget resp "success"
  if optTruthy sv then
    let d ← jindex resp "data"
    let plan ← o.ollamaDecode d
    let en2 := (setCachedResult o.cacheSet en).1
    .ok (plan, en2)
  else .error ()

/-- `EmergencyService.generate_rescue_plan`: validation (the only error
allowed to escape), cache-key computation, cache lookup (hit returns the
cached plan), then the guarded pipeline with the deterministic fallback on
any failure.  Returns the result together with the `cache_enabled` flag. -/
def generateRescuePlan (md5 : String → String) (o : GenerateOracle)
    (r : RescuePlanRequest) (cacheEnabled : Bool) : Except GenError RescuePlan × Bool :=
  match validateRequest r with
  | .error e => (.error (.validation e), cacheEnabled)
  | .ok _ =>
    let _key := generateCacheKey md5 r
    let g := getCachedResult o.cacheDecode o.cacheGet cacheEnabled
    match g.1 with
    | some plan => (.ok plan, g.2.1)
    | none =>
      match tryGenerate o r g.2.1 with
      | .ok (plan, en2) => (.ok plan, en2)
      | .error _ =>
        match createFallbackRescuePlan r with
        | .ok plan => (.ok plan, g.2.1)
        | .error _ => (.error .internalEscape, g.2.1)

/-- An oracle in which every service call fails. -/
def allFailOutcomes : GatherOutcomes :=
  { matPrimary := fun _ => .raise, matFallback := fun _ => .raise,
    env := .raise, procedures := .raise, rag := fun _ => .raise }

def allFailOracle : GenerateOracle :=
  { cacheGet := .raise, cacheDecode := fun _ => .error (),
    gather := allFailOutcomes, ollama := .raise,
    ollamaDecode := fun _ => .error (), cacheSet := .raise }

/-- Outcomes for the C5 counterexample: the material and environment
lookups succeed, the procedures lookup raises, the retrieval calls fail. -/
def procRaiseOutcomes : GatherOutcomes :=
  { matPrimary := fun _ => .ret (.obj [("success", .bool true), ("data", .str "木质燃烧特性")]),
    matFallback := fun _ => .raise,
    env := .ret (.obj [("success", .bool true), ("data", .obj [("area", .str "住宅")])]),
    procedures := .raise,
    rag := fun _ => .raise }

/-- The same outcomes, except that the procedures lookup returns an
unsuccessful body instead of raising. -/
def procFailOutcomes : GatherOutcomes :=
  { procRaiseOutcomes with procedures := .ret (.obj [("success", .bool false)]) }

/-! ## Decomposition helpers for the cache-key serialization

`_generate_cache_key` hashes `dumpsCanon (requestData r)`.  The helpers
below name the parts of that string surrounding the serialized items list
and, inside one item object, the serialized quantity; they are used to
show that a quantity change changes the serialized request. -/

/-- The serialized elements before a given position in a JSON array,
with their separators. -/
def listPrefixData (pre : List Json) : List Char :=
  pre.flatMap (fun j => (serialize j).data ++ (", " : String).data)

/-- The serialized elements after a given position in a JSON array. -/
def listSuffixData : List Json → List Char
  | [] => []
  | j :: rest => (", " : String).data ++ (serializeList (j :: rest)).data

/-- The canonical item-object serialization up to (and including) the
`"quantity": ` label — independent of the item's quantity (`++` is
right-associative, matching the `List.append_assoc` normal form). -/
def itemPrefixData (it : Item) : List Char :=
  ("\x7b" : String).data ++
  ("\"" : String).data ++ (escapeStr "condition").data ++ ("\": " : String).data ++
  (serialize (canonicalize (optStr it.condition))).data ++ (", " : String).data ++
  ("\"" : String).data ++ (escapeStr "flammability").data ++ ("\": " : String).data ++
  (serialize (canonicalize (optFlamJson it.flammability))).data ++ (", " : String).data ++
  ("\"" : String).data ++ (escapeStr "location").data ++ ("\": " : String).data ++
  (serialize (Json.str it.location)).data ++ (", " : String).data ++
  ("\"" : String).data ++ (escapeStr "material").data ++ ("\": " : String).data ++
  (serialize (Json.str it.material.value)).data ++ (", " : String).data ++
  ("\"" : String).data ++ (escapeStr "name").data ++ ("\": " : String).data ++
  (serialize (Json.str it.name)).data ++ (", " : String).data ++
  ("\"" : String).data ++ (escapeStr "quantity").data ++ ("\": " : String).data

/-- The canonical item-object serialization after the quantity value —
independent of the item's quantity. -/
def itemSuffixData (it : Item) : List Char :=
  (", " : String).data ++
  ("\"" : String).data ++ (escapeStr "size").data ++ ("\": " : String).data ++
  (serialize (canonicalize (optJson it.size))).data ++ (", " : String).data ++
  ("\"" : String).data ++ (escapeStr "toxicity").data ++ ("\": " : String).data ++
  (serialize (canonicalize (optToxJson it.toxicity))).data ++ (", " : String).data ++
  ("\"" : String).data ++ (escapeStr "weight").data ++ ("\": " : String).data ++
  (serialize (canonicalize (optJson it.weight))).data ++
  ("\x7d" : String).data

/-- The canonical request serialization before the items array —
independent of the items. -/
def reqPrefixData (ai : Option String) (env : Environment) : List Char :=
  ("\x7b" : String).data ++
  ("\"" : String).data ++ (escapeStr "additional_info").data ++ ("\": " : String).data ++
  (serialize (canonicalize (optStr ai))).data ++ (", " : String).data ++
  ("\"" : String).data ++ (escapeStr "environment").data ++ ("\": " : String).data ++
  (serialize (canonicalize (envJson env))).data ++ (", " : String).data ++
  ("\"" : String).data ++ (escapeStr "items").data ++ ("\": " : String).data ++
  ("[" : String).data

/-- The canonical request serialization after the items array —
independent of the items. -/
def reqSuffixData (u : String) : List Char :=
  ("]" : String).data ++ (", " : String).data ++
  ("\"" : String).data ++ (escapeStr "urgency_level").data ++ ("\": " : String).data ++
  (serialize (Json.str u)).data ++
  ("\x7d" : String).data

/-- Witness request for concrete evaluations: one wooden item with
quantity 1 in a residential indoor environment with 2 exits. -/
def witnessItem : Item :=
  { name := "木质桌子", material := .wood, quantity := 1, location := "客厅",
    condition := none, flammability := some .flammable, toxicity := none,
    size := none, weight := none }

def witnessEnvironment : Environment :=
  { type := .indoor, area := .residential, floor := some 1,
    ventilation := .excellent, exits := 2, occupancy := some 3,
    building_type := none, fire_safety_equipment := none,
    special_conditions := none }

def witnessRequest : RescuePlanRequest :=
  { items := [witnessItem], environment := witnessEnvironment,
    additional_info := none, urgency_level := "紧急",
    contact_info := none, user_id := none }

/-- `witnessRequest` with the same plan-relevant content but different
`contact_info`/`user_id` (fields the cache key ignores). -/
def witnessRequestVariant : RescuePlanRequest :=
  { witnessRequest with contact_info := some (.str "微信"), user_id := some "u1" }

/-- `witnessRequest` with the item quantity changed from 1 to 2. -/
def witnessRequestQty2 : RescuePlanRequest :=
  { witnessRequest with items := [{ witnessItem with quantity := 2 }] }

/-! ## The response parser (ollama_service.py: `_parse_rescue_plan_response`)

The parser is embedded at character level.  Each `re` pattern of the
source is implemented by an explicit matcher; Python `\s` and `\d` are
modelled by the common whitespace set and ASCII digits together with the
ten Chinese numerals the pattern lists (the wider Unicode classes play no
role in the texts involved). -/

/-- The step-numeral class `[一二三四五六七八九十\d]`. -/
def isStepNumChar (c : Char) : Bool :=
  c = '一' || c = '二' || c = '三' || c = '四' || c = '五' ||
  c = '六' || c = '七' || c = '八' || c = '九' || c = '十' || c.isDigit

/-- `re.match(r'^#{1,3}\s*第([一二三四五六七八九十\d]+)步[：:](.+)', line)`,
returning the captured title (group 2); the numeral group is matched but
never used by the parser. -/
def matchStepHeader (line : String) : Option String :=
  let cs := line.data
  let hashes := cs.takeWhile (fun c => c = '#')
  if 1 ≤ hashes.length ∧ hashes.length ≤ 3 then
    match (cs.dropWhile (fun c => c = '#')).dropWhile isPySpace with
    | '第' :: rest2 =>
      if (rest2.takeWhile isStepNumChar).length = 0 then none
      else
        match rest2.dropWhile isStepNumChar with
        | '步' :: c :: rest4 =>
          if (c = '：' ∨ c = ':') ∧ rest4 ≠ [] then some ⟨rest4⟩ else none
        | _ => none
    | _ => none
  else none

/-- The common prefix `-?\s*\**` of the field-label patterns. -/
def stripLabelPrefix (cs : List Char) : List Char :=
  let cs := match cs with
    | '-' :: rest => rest
    | _ => cs
  (cs.dropWhile isPySpace).dropWhile (fun c => c = '*')

/-- `re.match(r'^-?\s*\**<kw>\**[：:]', line)`, returning the remainder of
the line after the matched prefix (what `re.sub(pattern, '', line)`
leaves); `none` when the pattern does not match. -/
def matchFieldOpt (kw : String) (line : String) : Option String :=
  let cs := stripLabelPrefix line.data
  if kw.data.isPrefixOf cs then
    match (cs.drop kw.data.length).dropWhile (fun c => c = '*') with
    | c :: rest2 => if c = '：' ∨ c = ':' then some ⟨rest2⟩ else none
    | [] => none
  else none

/-- `re.match(r'^-?\s*\**(描述|说明)\**[：:](.+)', line)`: like
`matchFieldOpt` for either keyword, but `(.+)` additionally requires a
non-empty remainder. -/
def matchDesc (line : String) : Option String :=
  match matchFieldOpt "描述" line with
  | some rest => if rest.data ≠ [] then some rest else none
  | none =>
    match matchFieldOpt "说明" line with
    | some rest => if rest.data ≠ [] then some rest else none
    | none => none

/-- `.rstrip('。.')`. -/
def rstripPeriod (s : String) : String :=
  ⟨(s.data.reverse.dropWhile (fun c => c = '。' || c = '.')).reverse⟩

/-- Split a character list at every separator character, keeping empty
segments (the semantics of `re.split` / `str.split` with a separator). -/
def splitOnChar (p : Char → Bool) : List Char → List Char → List (List Char)
  | [], acc => [acc.reverse]
  | c :: rest, acc =>
    if p c then acc.reverse :: splitOnChar p rest []
    else splitOnChar p rest (c :: acc)

/-- `[eq.strip() for eq in re.split(r'[,，、]', text) if eq.strip()]`. -/
def splitEquip (s : String) : List String :=
  ((splitOnChar (fun c => c = ',' || c = '，' || c = '、') s.data []).map
    (fun cs => pyStrip ⟨cs⟩)).filter (fun t => t ≠ "")

/-- `int(s)` on a string of ASCII digits. -/
def digitsToNat (cs : List Char) : Nat :=
  cs.foldl (fun acc c => acc * 10 + (c.toNat - 48)) 0

/-- `re.search(r'(\d+)\s*分钟', text)`: the first maximal digit run that
is followed (after whitespace) by `分钟`. -/
def findNumBeforeMinutes : List Char → Option Nat
  | [] => none
  | c :: rest =>
    if c.isDigit then
      if ['分', '钟'].isPrefixOf (((c :: rest).dropWhile Char.isDigit).dropWhile isPySpace) then
        some (digitsToNat ((c :: rest).takeWhile Char.isDigit))
      else findNumBeforeMinutes rest
    else findNumBeforeMinutes rest

/-- `re.search(r'(\d+)', text)`: the first maximal digit run. -/
def findFirstNum : List Char → Option Nat
  | [] => none
  | c :: rest =>
    if c.isDigit then some (digitsToNat ((c :: rest).takeWhile Char.isDigit))
    else findFirstNum rest

/-- `line.lstrip("-•")`. -/
def lstripDashBullet (s : String) : String :=
  ⟨s.data.dropWhile (fun c => c = '-' || c = '•')⟩

/-- `line.startswith("-") or line.startswith("•")`. -/
def startsDashBullet (s : String) : Bool :=
  match s.data with
  | c :: _ => c = '-' || c = '•'
  | [] => false

/-- Substring containment (`needle in hay`). -/
def listContainsSub : List Char → List Char → Bool
  | hay, needle =>
    match hay with
    | [] => needle.isEmpty
    | _ :: rest => needle.isPrefixOf hay || listContainsSub rest needle

def strContains (hay needle : String) : Bool := listContainsSub hay.data needle.data

/-- `line.split(":", 1)[1]` (everything after the first ASCII colon). -/
def afterFirstColon : List Char → List Char
  | [] => []
  | c :: rest => if c = ':' then rest else afterFirstColon rest

/-- The title-extraction loop: first line that either starts with `#` and
mentions `方案`/`标题` (title is the line with all `#` removed, stripped),
or mentions `标题` and contains `:` (title is the text after the first
colon, stripped); default otherwise. -/
def extractTitle : List String → String
  | [] => "火灾应急救援方案"
  | l :: rest =>
    if startsHash l ∧ (strContains l "方案" ∨ strContains l "标题") then
      pyStrip ⟨l.data.filter (fun c => c ≠ '#')⟩
    else if strContains l "标题" ∧ strContains l ":" then
      pyStrip ⟨afterFirstColon l.data⟩
    else extractTitle rest
where
  startsHash (s : String) : Bool :=
    match s.data with
    | c :: _ => c = '#'
    | [] => false

inductive SectionKind where
  | description | equipment | warnings | time
deriving DecidableEq, Repr

/-- The loop state: collected steps, the in-progress step, the
`step_number` counter (starts at 1) and the most recently opened field
(`current_section`). -/
structure ParseState where
  steps : List RescueStep
  cur : Option RescueStep
  counter : Nat
  curSection : Option SectionKind

def ParseState.init : ParseState :=
  { steps := [], cur := none, counter := 1, curSection := none }

/-- One iteration of the line loop.  A step header flushes the previous
step and opens a new one through the pydantic constructor (whose failure —
e.g. a title longer than 500 characters — is the exception that aborts the
whole parse into the fallback); the field branches update the current step
by plain attribute assignment (unvalidated, as in the source) in the
`elif` order of the source: 描述/说明, 所需设备, 注意事项, 预计时间,
bullet continuation, ignore. -/
def processLine (st : ParseState) (line : String) : Except Unit ParseState :=
  match matchStepHeader line with
  | some title =>
    let flushed := match st.cur with
      | some s => st.steps ++ [s]
      | none => st.steps
    match mkRescueStep st.counter (pyStrip title) [] [] (some 5) with
    | .error e => .error e
    | .ok s =>
      .ok { steps := flushed, cur := some s, counter := st.counter + 1, curSection := none }
  | none =>
    match st.cur with
    | none => .ok st
    | some cur =>
      match matchDesc line with
      | some rest =>
        let dt := pyStrip rest
        let cur2 := if dt ≠ "" ∧ dt ≠ "[具体操作描述]" then { cur with description := dt } else cur
        .ok { st with cur := some cur2, curSection := some .description }
      | none =>
        match matchFieldOpt "所需设备" line with
        | some rest =>
          let et := rstripPeriod (pyStrip rest)
          let cur2 := if et ≠ "" ∧ et ≠ "[设备列表]" then
              { cur with equipment := cur.equipment ++ splitEquip et }
            else cur
          .ok { st with cur := some cur2, curSection := some .equipment }
        | none =>
          match matchFieldOpt "注意事项" line with
          | some rest =>
            let wt := rstripPeriod (pyStrip rest)
            let cur2 := if wt ≠ "" ∧ wt ≠ "[安全提醒]" then
                { cur with warnings := cur.warnings ++ [wt] }
              else cur
            .ok { st with cur := some cur2, curSection := some .warnings }
          | none =>
            match matchFieldOpt "预计时间" line with
            | some rest =>
              let tt := rstripPeriod (pyStrip rest)
              let cur2 := match findNumBeforeMinutes tt.data with
                | some n => { cur with estimated_time := some n }
                | none =>
                  match findFirstNum tt.data with
                  | some n => { cur with estimated_time := some n }
                  | none => cur
              .ok { st with cur := some cur2, curSection := some .time }
            | none =>
              if startsDashBullet line then
                let it := pyStrip (lstripDashBullet line)
                match st.curSection with
                | some .equipment =>
                  if it ≠ "" then
                    .ok { st with cur := some { cur with equipment := cur.equipment ++ [it] } }
                  else .ok st
                | some .warnings =>
                  if it ≠ "" then
                    .ok { st with cur := some { cur with warnings := cur.warnings ++ [it] } }
                  else .ok st
                | _ => .ok st
              else .ok st

def processLines : ParseState → List String → Except Unit ParseState
  | st, [] => .ok st
  | st, l :: rest =>
    match processLine st l with
    | .error e => .error e
    | .ok st2 => processLines st2 rest

/-- The final flush of the in-progress step. -/
def flushSteps (st : ParseState) : List RescueStep :=
  match st.cur with
  | some s => st.steps ++ [s]
  | none => st.steps

/-- The two-step generic plan created when no steps were parsed. -/
def defaultSteps : List RescueStep :=
  [{ step_number := 1, description := "评估现场情况，确保救援人员安全",
     equipment := ["防护装备", "通信设备"],
     warnings := ["注意现场安全", "保持通信畅通"], estimated_time := some 5 },
   { step_number := 2, description := "制定具体救援方案并执行",
     equipment := ["救援工具", "安全设备"],
     warnings := ["严格按照安全程序操作"], estimated_time := some 30 }]

/-- The plan returned by the parser's `except` handler. -/
def defaultParsePlan : RescuePlan :=
  { title := "火灾应急救援方案", priority := .high, steps := defaultSteps,
    equipment_list := ["防护装备", "通信设备", "救援工具", "安全设备"],
    warnings := ["注意现场安全", "保持通信畅通", "严格按照安全程序操作"],
    estimated_duration := 60 }

/-- `[line.strip() for line in response.strip().split('\n') if line.strip()]`. -/
def parseLines (response : String) : List String :=
  ((splitOnChar (fun c => c = '\n') (pyStrip response).data []).map
    (fun cs => pyStrip ⟨cs⟩)).filter (fun l => l ≠ "")

/-- The body of `_parse_rescue_plan_response`s `try` block. -/
def parseBody (response : String) (urgency : String) : Except Unit RescuePlan :=
  let lines := parseLines response
  let title := extractTitle lines
  match processLines ParseState.init lines with
  | .error e => .error e
  | .ok st =>
    let steps := flushSteps st
    let steps := if steps.isEmpty then defaultSteps else steps
    let equipment_list := pyListSet (steps.flatMap (fun s => s.equipment))
    let warnings := pyListSet (steps.flatMap (fun s => s.warnings))
    let td : Nat := steps.foldl (fun acc s => acc + s.estimated_time.getD 0) 0
    let td2 := if td = 0 then 60 else td
    mkRescuePlan title (parserPriority urgency) steps equipment_list warnings td2

/-- `OllamaService._parse_rescue_plan_response`: the `try` body, with the
`except` handler returning the fixed default plan. -/
def parseRescuePlanResponse (response : String) (urgency : String) : RescuePlan :=
  match parseBody response urgency with
  | .ok p => p
  | .error _ => defaultParsePlan

/-- The loop invariant of the parser's step counter: collected steps are
numbered `1..len` in order, the in-progress step carries `len + 1`, and
the counter holds the next number to assign. -/
def StateInv (st : ParseState) : Prop :=
  st.steps.map (fun s => s.step_number) = List.range' 1 st.steps.length ∧
  (∀ s, st.cur = some s → s.step_number = st.steps.length + 1) ∧
  st.counter = st.steps.length + (match st.cur with | some _ => 2 | none => 1)

/-- A sample generation response whose headers carry the numbers 一 and 9;
the parser must renumber them 1, 2. -/
def sampleResponse : String :=
  "### 第一步：评估火情\n- 所需设备：灭火器\n### 第9步：组织疏散\n- 注意事项：保持冷静"

/-- A response without any step header. -/
def noStepResponse : String := "请提供更多信息"

lemma recordSuccess_state_ne_halfOpen (ob : Option Breaker) :
    (recordSuccess ob).state ≠ .halfOpen := by
  rcases ob with _ | ⟨s, c, t⟩
  · simp [recordSuccess, Breaker.init]
  · cases s <;> simp [recordSuccess]

lemma recordSuccess_idem (ob : Option Breaker) :
    recordSuccess (some (recordSuccess ob)) = recordSuccess ob := by
  rcases ob with _ | ⟨s, c, t⟩
  · rfl
  · cases s <;> rfl

lemma recordSuccess_of_not_opened (ob : Option Breaker)
    (h : ∀ b, ob = some b → b.state ≠ .opened) :
    (recordSuccess ob).state = .closed := by
  rcases ob with _ | ⟨s, c, t⟩
  · simp [recordSuccess, Breaker.init]
  · cases s with
    | closed => simp [recordSuccess]
    | opened => exact absurd rfl (h _ rfl)
    | halfOpen => simp [recordSuccess]

/-- When the breaker check lets the call through, the state it hands to the
retry loop is never `open` (an `open` entry either refuses the call or is
switched to `half-open`). -/
lemma isBreakerOpen_not_opened (cfg : ClientConfig) (now : Nat) (ob : Option Breaker)
    (h : (isBreakerOpen cfg now ob).1 = false) :
    ∀ b, (isBreakerOpen cfg now ob).2 = some b → b.state ≠ .opened := by
  rcases ob with _ | ⟨s, c, t⟩
  · simp [isBreakerOpen]
  · cases s with
    | closed => simp_all [isBreakerOpen]
    | halfOpen => simp_all [isBreakerOpen]
    | opened =>
      rcases t with _ | t
      · simp [isBreakerOpen] at h
      · by_cases hc : now - t > cfg.cbTimeout
        · simp [isBreakerOpen, hc]
        · simp [isBreakerOpen, hc] at h

/-- Shifting the backoff schedule by one attempt. -/
lemma backoff_shift (d i f : Nat) (S : List Nat) :
    (S ++ [d * 2 ^ i]) ++ (List.range f).map (fun k => d * 2 ^ (i + 1 + k)) =
      S ++ (List.range (f + 1)).map (fun k => d * 2 ^ (i + k)) := by
  have hfun : (fun k => d * 2 ^ (i + 1 + k)) = ((fun k => d * 2 ^ (i + k)) ∘ Nat.succ) := by
    funext k
    show d * 2 ^ (i + 1 + k) = d * 2 ^ (i + Nat.succ k)
    rw [show i + 1 + k = i + Nat.succ k from by omega]
  rw [List.range_succ_eq_map, List.map_cons, List.map_map, ← hfun, List.append_assoc,
    List.singleton_append]
  simp

/-- The retry loop when every attempt raises an exception: all `fuel + 1`
attempts are made, the backoff sleeps are `retry_delay * 2 ^ attempt`, a
single failure is recorded at the end, and the last exception is raised. -/
lemma callLoop_allExc (cfg : ClientConfig) (now : Nat) (attempts : Nat → Attempt) :
    ∀ (fuel i : Nat) (b : Option Breaker) (S : List Nat) (m : Nat),
    (∀ j, j < fuel + 1 → (attempts (i + j)).isExc = true) →
    callLoop cfg now attempts i (fuel + 1) b S m =
      { result := .error (attemptError (attempts (i + fuel))),
        breaker := some (recordFailure cfg now b),
        sleeps := S ++ (List.range fuel).map (fun k => cfg.retryDelay * 2 ^ (i + k)),
        attemptsMade := m + (fuel + 1) } := by
  intro fuel
  induction fuel with
  | zero =>
    intro i b S m h
    have h0 := h 0 (by omega)
    rw [Nat.add_zero] at h0 ⊢
    cases ha : attempts i <;> simp [Attempt.isExc, ha] at h0 <;>
      simp [callLoop, ha, attemptError]
  | succ f ih =>
    intro i b S m h
    have h0 := h 0 (by omega)
    rw [Nat.add_zero] at h0
    have hrec := ih (i + 1) b (S ++ [cfg.retryDelay * 2 ^ i]) (m + 1)
      (fun j hj => by
        have hh := h (j + 1) (by omega)
        rwa [show i + (j + 1) = i + 1 + j by omega] at hh)
    have hidx : i + 1 + f = i + (f + 1) := by omega
    have hmade : m + 1 + (f + 1) = m + (f + 1 + 1) := by omega
    cases ha : attempts i <;> simp [Attempt.isExc, ha] at h0 <;>
      · rw [callLoop, ha]
        simp only [Nat.succ_ne_zero, reduceIte]
        rw [hrec, hidx, backoff_shift, hmade]

/-- The retry loop when every attempt yields a response with a non-2xx
status: each attempt records a *success* (resetting the failure counter)
before raising, so after the final `_record_failure` the counter is exactly
1 and the state is derived from the success chain. -/
lemma callLoop_allBad (cfg : ClientConfig) (now : Nat) (attempts : Nat → Attempt) :
    ∀ (fuel i : Nat) (b : Option Breaker) (S : List Nat) (m : Nat),
    (∀ j, j < fuel + 1 → ∃ s, attempts (i + j) = .response s ∧ 400 ≤ s) →
    callLoop cfg now attempts i (fuel + 1) b S m =
      { result := .error .communication,
        breaker := some (recordFailure cfg now (some (recordSuccess b))),
        sleeps := S ++ (List.range fuel).map (fun k => cfg.retryDelay * 2 ^ (i + k)),
        attemptsMade := m + (fuel + 1) } := by
  intro fuel
  induction fuel with
  | zero =>
    intro i b S m h
    obtain ⟨s, hs, hs400⟩ := h 0 (by omega)
    rw [Nat.add_zero] at hs
    have h400 : ¬ s < 400 := Nat.not_lt.mpr hs400
    rw [callLoop, hs]
    simp [h400]
  | succ f ih =>
    intro i b S m h
    obtain ⟨s, hs, hs400⟩ := h 0 (by omega)
    rw [Nat.add_zero] at hs
    have h400 : ¬ s < 400 := Nat.not_lt.mpr hs400
    have hrec := ih (i + 1) (some (recordSuccess b)) (S ++ [cfg.retryDelay * 2 ^ i]) (m + 1)
      (fun j hj => by
        have hh := h (j + 1) (by omega)
        rwa [show i + (j + 1) = i + 1 + j by omega] at hh)
    have hmade : m + 1 + (f + 1) = m + (f + 1 + 1) := by omega
    rw [callLoop, hs]
    simp only [h400, Nat.succ_ne_zero, reduceIte]
    rw [hrec, backoff_shift, recordSuccess_idem, hmade]

/-- The retry loop when every attempt fails (raises or returns a status
`>= 400`), in any mix: all `fuel + 1` attempts are made, the backoff
sleeps are `retry_delay * 2 ^ attempt`, the breaker entry threads the
per-response success recordings, a single failure is recorded at the end,
and the last attempt's exception is raised. -/
lemma callLoop_allFail (cfg : ClientConfig) (now : Nat) (attempts : Nat → Attempt) :
    ∀ (fuel i : Nat) (b : Option Breaker) (S : List Nat) (m : Nat),
    (∀ j, j < fuel + 1 → (attempts (i + j)).fails = true) →
    callLoop cfg now attempts i (fuel + 1) b S m =
      { result := .error (attemptError (attempts (i + fuel))),
        breaker := some (recordFailure cfg now (successThread attempts i (fuel + 1) b)),
        sleeps := S ++ (List.range fuel).map (fun k => cfg.retryDelay * 2 ^ (i + k)),
        attemptsMade := m + (fuel + 1) } := by
  intro fuel
  induction fuel with
  | zero =>
    intro i b S m h
    have h0 := h 0 (by omega)
    rw [Nat.add_zero] at h0 ⊢
    cases ha : attempts i with
    | response s =>
      rw [ha] at h0
      have hs400 : ¬ s < 400 := by
        simp only [Attempt.fails, decide_eq_true_eq] at h0
        omega
      simp [callLoop, ha, hs400, attemptError, successThread]
    | timeoutExc => simp [callLoop, ha, attemptError, successThread]
    | connectExc => simp [callLoop, ha, attemptError, successThread]
    | httpExc => simp [callLoop, ha, attemptError, successThread]
    | otherExc => simp [callLoop, ha, attemptError, successThread]
  | succ f ih =>
    intro i b S m h
    have h0 := h 0 (by omega)
    rw [Nat.add_zero] at h0
    have hidx : i + 1 + f = i + (f + 1) := by omega
    have hmade : m + 1 + (f + 1) = m + (f + 1 + 1) := by omega
    have hnext : ∀ j, j < f + 1 → (attempts (i + 1 + j)).fails = true := fun j hj => by
      have hh := h (j + 1) (by omega)
      rwa [show i + (j + 1) = i + 1 + j by omega] at hh
    cases ha : attempts i with
    | response s =>
      rw [ha] at h0
      have hs400 : ¬ s < 400 := by
        simp only [Attempt.fails, decide_eq_true_eq] at h0
        omega
      have hrec := ih (i + 1) (some (recordSuccess b)) (S ++ [cfg.retryDelay * 2 ^ i])
        (m + 1) hnext
      have hst : successThread attempts i (f + 1 + 1) b
          = successThread attempts (i + 1) (f + 1) (some (recordSuccess b)) := by
        rw [successThread, ha]
      rw [callLoop, ha]
      simp only [hs400, Nat.succ_ne_zero, reduceIte]
      rw [hrec, hidx, backoff_shift, hmade, hst]
    | timeoutExc =>
      have hrec := ih (i + 1) b (S ++ [cfg.retryDelay * 2 ^ i]) (m + 1) hnext
      have hst : successThread attempts i (f + 1 + 1) b
          = successThread attempts (i + 1) (f + 1) b := by
        rw [successThread, ha]
      rw [callLoop, ha]
      simp only [Nat.succ_ne_zero, reduceIte]
      rw [hrec, hidx, backoff_shift, hmade, hst]
    | connectExc =>
      have hrec := ih (i + 1) b (S ++ [cfg.retryDelay * 2 ^ i]) (m + 1) hnext
      have hst : successThread attempts i (f + 1 + 1) b
          = successThread attempts (i + 1) (f + 1) b := by
        rw [successThread, ha]
      rw [callLoop, ha]
      simp only [Nat.succ_ne_zero, reduceIte]
      rw [hrec, hidx, backoff_shift, hmade, hst]
    | httpExc =>
      have hrec := ih (i + 1) b (S ++ [cfg.retryDelay * 2 ^ i]) (m + 1) hnext
      have hst : successThread attempts i (f + 1 + 1) b
          = successThread attempts (i + 1) (f + 1) b := by
        rw [successThread, ha]
      rw [callLoop, ha]
      simp only [Nat.succ_ne_zero, reduceIte]
      rw [hrec, hidx, backoff_shift, hmade, hst]
    | otherExc =>
      have hrec := ih (i + 1) b (S ++ [cfg.retryDelay * 2 ^ i]) (m + 1) hnext
      have hst : successThread attempts i (f + 1 + 1) b
          = successThread attempts (i + 1) (f + 1) b := by
        rw [successThread, ha]
      rw [callLoop, ha]
      simp only [Nat.succ_ne_zero, reduceIte]
      rw [hrec, hidx, backoff_shift, hmade, hst]

lemma recordSuccess_count (ob : Option Breaker) : (recordSuccess ob).failureCount = 0 := by
  rcases ob with _ | ⟨s, c, t⟩
  · rfl
  · cases s <;> rfl

lemma recordFailure_some (cfg : ClientConfig) (now : Nat) (b : Breaker) :
    recordFailure cfg now (some b) =
      if cfg.threshold ≤ b.failureCount + 1
      then { state := .opened, failureCount := b.failureCount + 1, lastFailureTime := some now }
      else { state := b.state, failureCount := b.failureCount + 1, lastFailureTime := some now } := by
  rfl

/-- C2 counterexample: with the source's default configuration (failure
threshold 5), a breaker in the half-open state does **not** transition to
open on the next recorded failure — `_record_failure` merely sets the
counter to 1 and the state stays `half-open` — refuting the claimed
transition `half-open → open` on the next recorded failure. -/
theorem c2_counterexample :
    (recordFailure ClientConfig.default 200
        (some { state := .halfOpen, failureCount := 0, lastFailureTime := some 100 })).state
      = .halfOpen ∧
    (recordFailure ClientConfig.default 200
        (some { state := .halfOpen, failureCount := 0, lastFailureTime := some 100 })).state
      ≠ .opened := by
  decide

/-- C2 (amended): the per-service breaker transitions are: `closed → open`
when the consecutive-failure counter reaches the configured threshold;
`open → half-open` exactly when the cool-down interval has elapsed since
the last failure (until then `call_service` fails immediately with
`ServiceUnavailableError` and makes no network attempt); `half-open →
closed` on the next recorded success; and from `half-open`, a recorded
failure opens the breaker only when the counter (reset on entering
half-open) again reaches the threshold — not on the next failure unless
the threshold is 1. -/
theorem c2_breaker_transitions (cfg : ClientConfig) (now : Nat) (b : Breaker) :
    (b.state = .closed →
      recordFailure cfg now (some b) =
        { state := if cfg.threshold ≤ b.failureCount + 1 then .opened else .closed,
          failureCount := b.failureCount + 1, lastFailureTime := some now }) ∧
    (∀ t, b.state = .opened → b.lastFailureTime = some t →
      isBreakerOpen cfg now (some b) =
        if cfg.cbTimeout < now - t then
          (false, some { state := .halfOpen, failureCount := 0, lastFailureTime := some t })
        else (true, some b)) ∧
    (∀ t attempts, b.state = .opened → b.lastFailureTime = some t →
        now - t ≤ cfg.cbTimeout →
      callService cfg now attempts (some b) =
        { result := .error .unavailable, breaker := some b,
          sleeps := [], attemptsMade := 0 }) ∧
    (b.state = .halfOpen →
      recordSuccess (some b) =
        { state := .closed, failureCount := 0, lastFailureTime := b.lastFailureTime }) ∧
    (b.state = .halfOpen →
      recordFailure cfg now (some b) =
        { state := if cfg.threshold ≤ b.failureCount + 1 then .opened else .halfOpen,
          failureCount := b.failureCount + 1, lastFailureTime := some now }) := by
  obtain ⟨s, c, t⟩ := b
  refine ⟨?_, ?_, ?_, ?_, ?_⟩
  · intro hs
    simp only at hs
    subst hs
    rw [recordFailure_some]
    split <;> simp_all
  · intro t0 hs ht
    simp only at hs ht
    subst hs
    subst ht
    by_cases hc : cfg.cbTimeout < now - t0 <;>
      simp [isBreakerOpen, hc, gt_iff_lt]
  · intro t0 attempts hs ht hcool
    simp only at hs ht
    subst hs
    subst ht
    have hc : ¬ cfg.cbTimeout < now - t0 := Nat.not_lt.mpr hcool
    simp [callService, isBreakerOpen, hc, gt_iff_lt]
  · intro hs
    simp only at hs
    subst hs
    rfl
  · intro hs
    simp only at hs
    subst hs
    rw [recordFailure_some]
    split <;> simp_all

/-- Witness for `c2_breaker_transitions` at concrete breakers: a closed
breaker one failure below the default threshold opens on the next failure;
an open breaker whose cool-down has expired moves to half-open on the
check; an open breaker inside the cool-down is refused without attempts;
a half-open breaker closes on a recorded success; a half-open breaker one
failure below the threshold opens on the next failure. -/
theorem c2_breaker_transitions_witness :
    recordFailure ClientConfig.default 50
        (some { state := .closed, failureCount := 4, lastFailureTime := some 10 }) =
      { state := .opened, failureCount := 5, lastFailureTime := some 50 } ∧
    isBreakerOpen ClientConfig.default 200
        (some { state := .opened, failureCount := 5, lastFailureTime := some 100 }) =
      (false, some { state := .halfOpen, failureCount := 0, lastFailureTime := some 100 }) ∧
    callService ClientConfig.default 130 (fun _ => .timeoutExc)
        (some { state := .opened, failureCount := 5, lastFailureTime := some 100 }) =
      { result := .error .unavailable,
        breaker := some { state := .opened, failureCount := 5, lastFailureTime := some 100 },
        sleeps := [], attemptsMade := 0 } ∧
    recordSuccess (some { state := .halfOpen, failureCount := 3, lastFailureTime := some 100 }) =
      { state := .closed, failureCount := 0, lastFailureTime := some 100 } ∧
    recordFailure ClientConfig.default 150
        (some { state := .halfOpen, failureCount := 4, lastFailureTime := some 100 }) =
      { state := .opened, failureCount := 5, lastFailureTime := some 150 } := by
  refine ⟨?_, ?_, ?_, ?_, ?_⟩
  · exact ((c2_breaker_transitions ClientConfig.default 50
      { state := .closed, failureCount := 4, lastFailureTime := some 10 }).1 rfl).trans
      (by decide)
  · exact ((c2_breaker_transitions ClientConfig.default 200
      { state := .opened, failureCount := 5, lastFailureTime := some 100 }).2.1 100
      rfl rfl).trans (by decide)
  · exact (c2_breaker_transitions ClientConfig.default 130
      { state := .opened, failureCount := 5, lastFailureTime := some 100 }).2.2.1 100
      (fun _ => .timeoutExc) rfl rfl (by decide)
  · exact ((c2_breaker_transitions ClientConfig.default 0
      { state := .halfOpen, failureCount := 3, lastFailureTime := some 100 }).2.2.2.1 rfl).trans
      (by decide)
  · exact ((c2_breaker_transitions ClientConfig.default 150
      { state := .halfOpen, failureCount := 4, lastFailureTime := some 100 }).2.2.2.2 rfl).trans
      (by decide)

/-- C3 counterexample: two consecutive `call_service` invocations, with
failure threshold configured to 2, in which every attempt returns HTTP
500.  Each invocation ends with `failure_count = 1` and a closed breaker:
`_record_success` runs for every received response (before the status
check), resetting the counter, so consecutive failing calls do **not**
advance the counter toward the open threshold. -/
theorem c3_counterexample :
    (callService { maxRetries := 3, retryDelay := 1, threshold := 2, cbTimeout := 60 } 0
        (fun _ => .response 500) none).breaker
      = some { state := .closed, failureCount := 1, lastFailureTime := some 0 } ∧
    (callService { maxRetries := 3, retryDelay := 1, threshold := 2, cbTimeout := 60 } 10
        (fun _ => .response 500)
        ((callService { maxRetries := 3, retryDelay := 1, threshold := 2, cbTimeout := 60 } 0
          (fun _ => .response 500) none).breaker)).breaker
      = some { state := .closed, failureCount := 1, lastFailureTime := some 10 } := by
  decide

/-- C3 (amended): a `call_service` invocation whose attempts all fail — in
any mix of raised exceptions and responses with status `>= 400` — makes
exactly `max_retries + 1` attempts with backoff sleeps
`retry_delay * 2 ^ attempt` and never stops early (the breaker cannot open
mid-invocation, because `_record_failure` runs only once, after the loop);
the breaker ends at one failure recorded on top of the threaded
per-response success recordings.  When every attempt raises a transport
error or timeout, exactly one failure is recorded, advancing the counter
by one.  When every attempt returns a response with status `>= 400`, a
success is recorded per attempt before the error, so the invocation always
ends with `failure_count = 1` (and the state opens only if the threshold
is 1).  The boundary is `status_code >= 400`: a first-attempt response
with any status `< 400` (3xx included) is recorded as a success and
returned, ending the invocation after one attempt with `failure_count
= 0`. -/
theorem c3_callService_retry_and_recording (cfg : ClientConfig) (now : Nat)
    (attempts : Nat → Attempt) (b : Option Breaker)
    (hopen : (isBreakerOpen cfg now b).1 = false) :
    ((∀ i, i < cfg.maxRetries + 1 → (attempts i).fails = true) →
      callService cfg now attempts b =
        { result := .error (attemptError (attempts cfg.maxRetries)),
          breaker := some (recordFailure cfg now
            (successThread attempts 0 (cfg.maxRetries + 1) (isBreakerOpen cfg now b).2)),
          sleeps := (List.range cfg.maxRetries).map (fun k => cfg.retryDelay * 2 ^ k),
          attemptsMade := cfg.maxRetries + 1 }) ∧
    ((∀ i, i < cfg.maxRetries + 1 → (attempts i).isExc = true) →
      callService cfg now attempts b =
        { result := .error (attemptError (attempts cfg.maxRetries)),
          breaker := some (recordFailure cfg now (isBreakerOpen cfg now b).2),
          sleeps := (List.range cfg.maxRetries).map (fun k => cfg.retryDelay * 2 ^ k),
          attemptsMade := cfg.maxRetries + 1 }) ∧
    ((∀ i, i < cfg.maxRetries + 1 → ∃ s, attempts i = .response s ∧ 400 ≤ s) →
      callService cfg now attempts b =
        { result := .error .communication,
          breaker := some { state := if cfg.threshold ≤ 1 then .opened else .closed,
                            failureCount := 1, lastFailureTime := some now },
          sleeps := (List.range cfg.maxRetries).map (fun k => cfg.retryDelay * 2 ^ k),
          attemptsMade := cfg.maxRetries + 1 }) ∧
    (∀ s, s < 400 → attempts 0 = .response s →
      callService cfg now attempts b =
        { result := .ok s, breaker := some (recordSuccess (isBreakerOpen cfg now b).2),
          sleeps := [], attemptsMade := 1 }) := by
  refine ⟨?_, ?_, ?_, ?_⟩
  · intro hfail
    rw [callService]
    simp only [hopen, Bool.false_eq_true, if_false]
    rw [callLoop_allFail cfg now attempts cfg.maxRetries 0 _ [] 0
      (fun j hj => by simpa using hfail j hj)]
    simp
  · intro hexc
    rw [callService]
    simp only [hopen, Bool.false_eq_true, if_false]
    rw [callLoop_allExc cfg now attempts cfg.maxRetries 0 _ [] 0
      (fun j hj => by simpa using hexc j hj)]
    simp
  · intro hbad
    rw [callService]
    simp only [hopen, Bool.false_eq_true, if_false]
    rw [callLoop_allBad cfg now attempts cfg.maxRetries 0 _ [] 0
      (fun j hj => by simpa using hbad j hj)]
    have hst : (recordSuccess (isBreakerOpen cfg now b).2).state = .closed :=
      recordSuccess_of_not_opened _ (isBreakerOpen_not_opened cfg now b hopen)
    rw [recordFailure_some]
    rw [recordSuccess_count, hst]
    by_cases hthr : cfg.threshold ≤ 1 <;> simp [hthr]
  · intro s hs400 h0
    rw [callService]
    simp only [hopen, Bool.false_eq_true, if_false]
    rw [callLoop, h0]
    simp [hs400]

/-- Witness for `c3_callService_retry_and_recording`: with the default
configuration and an empty breaker table, a mixed invocation (a timeout
followed by HTTP 500s) makes all four attempts with sleeps `[1, 2, 4]`
and ends with `failure_count = 1`; an all-timeouts invocation ends with
one recorded failure; an all-HTTP-503 invocation also makes four attempts
and ends with `failure_count = 1` and a closed breaker; a 302 response is
returned as a success after one attempt with `failure_count = 0`. -/
theorem c3_callService_witness :
    callService ClientConfig.default 7
        (fun i => if i = 0 then .timeoutExc else .response 500) none =
      { result := .error .communication,
        breaker := some { state := .closed, failureCount := 1, lastFailureTime := some 7 },
        sleeps := [1, 2, 4], attemptsMade := 4 } ∧
    callService ClientConfig.default 7 (fun _ => .timeoutExc) none =
      { result := .error .timeout,
        breaker := some { state := .closed, failureCount := 1, lastFailureTime := some 7 },
        sleeps := [1, 2, 4], attemptsMade := 4 } ∧
    callService ClientConfig.default 7 (fun _ => .response 503) none =
      { result := .error .communication,
        breaker := some { state := .closed, failureCount := 1, lastFailureTime := some 7 },
        sleeps := [1, 2, 4], attemptsMade := 4 } ∧
    callService ClientConfig.default 7 (fun _ => .response 302) none =
      { result := .ok 302,
        breaker := some { state := .closed, failureCount := 0, lastFailureTime := none },
        sleeps := [], attemptsMade := 1 } := by
  refine ⟨?_, ?_, ?_, ?_⟩
  · exact ((c3_callService_retry_and_recording ClientConfig.default 7
      (fun i => if i = 0 then .timeoutExc else .response 500) none (by decide)).1
      (fun i hi => by cases i <;> rfl)).trans (by rfl)
  · exact ((c3_callService_retry_and_recording ClientConfig.default 7
      (fun _ => .timeoutExc) none (by decide)).2.1 (fun i hi => by decide)).trans (by rfl)
  · exact ((c3_callService_retry_and_recording ClientConfig.default 7
      (fun _ => .response 503) none (by decide)).2.2.1
      (fun i hi => ⟨503, rfl, by decide⟩)).trans (by rfl)
  · exact ((c3_callService_retry_and_recording ClientConfig.default 7
      (fun _ => .response 302) none (by decide)).2.2.2 302 (by decide) rfl).trans (by rfl)

/-- Items passing `validateItem` under the model constraints. -/
lemma validateItem_ok (it : Item)
    (hname : pyStrip it.name ≠ "") (hq : 1 ≤ it.quantity) (hloc : pyStrip it.location ≠ "") :
    validateItem it = .ok () := by
  have hq0 : ¬ it.quantity ≤ 0 := by omega
  simp [validateItem, hname, hq0, hloc]

lemma forM_validateItem_ok (l : List Item)
    (h : ∀ it ∈ l, validateItem it = .ok ()) :
    l.forM validateItem = .ok () := by
  induction l with
  | nil => rfl
  | cons it rest ih =>
    calc (it :: rest).forM validateItem
        = validateItem it >>= fun _ => rest.forM validateItem := rfl
      _ = Except.ok () >>= fun _ => rest.forM validateItem := by rw [h it (by simp)]
      _ = rest.forM validateItem := rfl
      _ = .ok () := ih (fun x hx => h x (by simp [hx]))

/-- C10: every `RescuePlanRequest` that satisfies the pydantic data-model
constraints (1–50 items, each with quantity ≥ 1 and stripped non-empty
name and location, exits ≥ 1, occupancy ≥ 0 when present) passes
`_validate_request` without raising: all of its error branches are
unreachable under the model invariants. -/
theorem validateRequest_ok_of_model (r : RescuePlanRequest)
    (h : RequestSatisfiesModel r) :
    validateRequest r = .ok () := by
  obtain ⟨hlen1, hlen50, hitems, hexits, hocc⟩ := h
  have hne : ¬ r.items.isEmpty := by
    cases hl : r.items with
    | nil => rw [hl] at hlen1; simp at hlen1
    | cons a l => simp [hl]
  have h50 : ¬ 50 < r.items.length := by omega
  have hex0 : ¬ r.environment.exits ≤ 0 := by omega
  have hall : r.items.forM validateItem = .ok () :=
    forM_validateItem_ok _ (fun it hit =>
      validateItem_ok it (hitems it hit).1 (hitems it hit).2.1 (hitems it hit).2.2)
  rw [validateRequest]
  simp only [hne, Bool.false_eq_true, if_false, h50, hex0, reduceIte, hall]
  cases ho : r.environment.occupancy with
  | none => rfl
  | some occ =>
    have hv : ¬ occ < 0 := by
      have := hocc occ ho
      omega
    simp [hv]

theorem validateRequest_ok_of_model_witness :
    RequestSatisfiesModel witnessRequest ∧ validateRequest witnessRequest = .ok () := by
  have hmodel : RequestSatisfiesModel witnessRequest := by
    refine ⟨by decide, by decide, ?_, by decide, ?_⟩
    · intro it hit
      have : it = witnessItem := by simpa [witnessRequest] using hit
      subst this
      exact ⟨by decide, by decide, by decide⟩
    · intro occ h
      have : occ = 3 := by simpa [witnessRequest, witnessEnvironment] using h.symm
      omega
  exact ⟨hmodel, validateRequest_ok_of_model witnessRequest hmodel⟩

/-- C9 counterexample: at urgency level `"低"` the fallback synthesizer
assigns priority `低` (LOW), while the generation parser assigns `中`
(MEDIUM) — so the fallback does not map low/general to medium and does not
use the same mapping as the parser. -/
theorem fallback_parser_priority_counterexample :
    fallbackPriority "低" = .low ∧
    parserPriority "低" = .medium ∧
    fallbackPriority "低" ≠ parserPriority "低" ∧
    fallbackPriority "低" ≠ .medium := by
  refine ⟨by decide, by decide, by decide, by decide⟩

/-- C9 (amended): the fallback synthesizer derives priority by the fixed
mapping urgent/very-urgent → urgent, low/general → low, otherwise medium;
this differs from the parser's mapping (low/general → medium, otherwise
high), and the two mappings agree exactly on the urgent/very-urgent
levels. -/
theorem fallbackPriority_mapping (u : String) :
    (u = "紧急" ∨ u = "非常紧急" → fallbackPriority u = .urgent) ∧
    (u = "低" ∨ u = "一般" → fallbackPriority u = .low) ∧
    (¬ (u = "紧急" ∨ u = "非常紧急") → ¬ (u = "低" ∨ u = "一般") →
      fallbackPriority u = .medium) ∧
    (fallbackPriority u = parserPriority u ↔ (u = "紧急" ∨ u = "非常紧急")) := by
  by_cases h1 : u = "紧急" <;> by_cases h2 : u = "非常紧急" <;>
    by_cases h3 : u = "低" <;> by_cases h4 : u = "一般" <;>
    simp_all [fallbackPriority, parserPriority]

/-- Witness for `fallbackPriority_mapping` at the three mapping classes. -/
theorem fallbackPriority_mapping_witness :
    fallbackPriority "非常紧急" = .urgent ∧
    fallbackPriority "一般" = .low ∧
    fallbackPriority "中" = .medium ∧
    fallbackPriority "中" ≠ parserPriority "中" := by
  refine ⟨(fallbackPriority_mapping "非常紧急").1 (Or.inr rfl),
    (fallbackPriority_mapping "一般").2.1 (Or.inr rfl),
    (fallbackPriority_mapping "中").2.2.1 (by decide) (by decide),
    fun h => ?_⟩
  have := (fallbackPriority_mapping "中").2.2.2.mp h
  revert this
  decide

/-! ### Cache key (C6): canonical serialization -/

lemma canonicalize_itemJson (it : Item) :
    canonicalize (itemJson it) =
      .obj [("condition", canonicalize (optStr it.condition)),
            ("flammability", canonicalize (optFlamJson it.flammability)),
            ("location", .str it.location),
            ("material", .str it.material.value),
            ("name", .str it.name),
            ("quantity", .num it.quantity),
            ("size", canonicalize (optJson it.size)),
            ("toxicity", canonicalize (optToxJson it.toxicity)),
            ("weight", canonicalize (optJson it.weight))] := rfl

lemma canonicalize_requestData (r : RescuePlanRequest) :
    canonicalize (requestData r) =
      .obj [("additional_info", canonicalize (optStr r.additional_info)),
            ("environment", canonicalize (envJson r.environment)),
            ("items", .arr (canonList (r.items.map itemJson))),
            ("urgency_level", .str r.urgency_level)] := rfl

lemma serializeList_decomp : ∀ (pre : List Json) (x : Json) (post : List Json),
    (serializeList (pre ++ x :: post)).data =
      listPrefixData pre ++ (serialize x).data ++ listSuffixData post := by
  intro pre
  induction pre with
  | nil =>
    intro x post
    cases post with
    | nil => simp [serializeList, listPrefixData, listSuffixData]
    | cons y rest =>
      simp [serializeList, listPrefixData, listSuffixData, String.data_append]
  | cons p pre2 ih =>
    intro x post
    obtain ⟨a, l2, hl⟩ : ∃ a l2, pre2 ++ x :: post = a :: l2 := by
      cases hc : pre2 ++ x :: post with
      | nil => simp at hc
      | cons a l2 => exact ⟨a, l2, rfl⟩
    rw [List.cons_append, hl, serializeList, ← hl, String.data_append, String.data_append, ih]
    simp [listPrefixData, String.data_append]

lemma serialize_canonItem_decomp (it : Item) :
    (serialize (canonicalize (itemJson it))).data =
      itemPrefixData it ++ (intRepr it.quantity).data ++ itemSuffixData it := by
  rw [canonicalize_itemJson]
  simp only [serialize, serializeFields, String.data_append, List.append_assoc,
    itemPrefixData, itemSuffixData]

lemma dumpsCanon_requestData_decomp (r : RescuePlanRequest) :
    (dumpsCanon (requestData r)).data =
      reqPrefixData r.additional_info r.environment ++
        (serializeList (canonList (r.items.map itemJson))).data ++
        reqSuffixData r.urgency_level := by
  rw [dumpsCanon, canonicalize_requestData]
  simp only [serialize, serializeFields, String.data_append, List.append_assoc,
    reqPrefixData, reqSuffixData]

lemma natDigitsAux_eq_digits : ∀ (fuel n : Nat), n ≤ fuel →
    natDigitsAux fuel n = Nat.digits 10 n := by
  intro fuel
  induction fuel with
  | zero =>
    intro n h
    interval_cases n
    simp [natDigitsAux]
  | succ f ih =>
    intro n h
    match n with
    | 0 => simp [natDigitsAux]
    | m + 1 =>
      rw [natDigitsAux, Nat.digits_def' (by norm_num : (1:ℕ) < 10) (Nat.succ_pos m)]
      congr 1
      refine ih _ ?_
      have := Nat.div_lt_self (Nat.succ_pos m) (by norm_num : 1 < 10)
      omega

lemma digitChar_inj (d1 d2 : Nat) (h1 : d1 < 10) (h2 : d2 < 10) :
    digitChar d1 = digitChar d2 → d1 = d2 := by
  interval_cases d1 <;> interval_cases d2 <;> decide

lemma map_digitChar_inj : ∀ (l1 l2 : List Nat), (∀ d ∈ l1, d < 10) → (∀ d ∈ l2, d < 10) →
    l1.map digitChar = l2.map digitChar → l1 = l2 := by
  intro l1
  induction l1 with
  | nil =>
    intro l2 _ _ h
    cases l2 with
    | nil => rfl
    | cons e r => simp at h
  | cons d rest ih =>
    intro l2 h1 h2 h
    cases l2 with
    | nil => simp at h
    | cons e rest2 =>
      simp only [List.map_cons, List.cons.injEq] at h
      have hd := digitChar_inj d e (h1 d (by simp)) (h2 e (by simp)) h.1
      rw [hd, ih rest2 (fun x hx => h1 x (by simp [hx])) (fun x hx => h2 x (by simp [hx])) h.2]

lemma natRepr_inj (m n : Nat) (h : natRepr m = natRepr n) : m = n := by
  have hdig : ∀ k : Nat, ∀ d ∈ (Nat.digits 10 k).reverse, d < 10 := by
    intro k d hd
    exact Nat.digits_lt_base (by norm_num) (List.mem_reverse.mp hd)
  have hofd : ∀ k : Nat, (Nat.digits 10 k).reverse = [0] → k = 0 := by
    intro k hk
    have h2 : Nat.digits 10 k = [0] := by
      have := congrArg List.reverse hk
      simpa using this
    have h3 := Nat.ofDigits_digits 10 k
    rw [h2] at h3
    simpa [Nat.ofDigits] using h3.symm
  by_cases hm : m = 0 <;> by_cases hn : n = 0
  · omega
  · exfalso
    rw [natRepr, natRepr, if_pos hm, if_neg hn, natDigitsAux_eq_digits n n le_rfl] at h
    have hdata := congrArg String.data h
    have h0 : ([0] : List Nat).map digitChar = (Nat.digits 10 n).reverse.map digitChar := hdata
    have h1 := map_digitChar_inj [0] (Nat.digits 10 n).reverse (by simp) (hdig n) h0
    exact hn (hofd n h1.symm)
  · exfalso
    rw [natRepr, natRepr, if_neg hm, if_pos hn, natDigitsAux_eq_digits m m le_rfl] at h
    have hdata := congrArg String.data h
    have h0 : (Nat.digits 10 m).reverse.map digitChar = ([0] : List Nat).map digitChar := hdata
    exact hm (hofd m (map_digitChar_inj _ _ (hdig m) (by simp) h0))
  · rw [natRepr, natRepr, if_neg hm, if_neg hn,
      natDigitsAux_eq_digits m m le_rfl, natDigitsAux_eq_digits n n le_rfl] at h
    have hdata := congrArg String.data h
    have h0 : (Nat.digits 10 m).reverse.map digitChar = (Nat.digits 10 n).reverse.map digitChar := hdata
    have h1 := map_digitChar_inj _ _ (hdig m) (hdig n) h0
    have h2 : Nat.digits 10 m = Nat.digits 10 n := by
      have := congrArg List.reverse h1
      simpa using this
    have h3 := Nat.ofDigits_digits 10 m
    rw [h2, Nat.ofDigits_digits] at h3
    omega

lemma intRepr_pos_inj (a b : Int) (ha : 1 ≤ a) (hb : 1 ≤ b) (h : intRepr a = intRepr b) :
    a = b := by
  have ha0 : ¬ a < 0 := by omega
  have hb0 : ¬ b < 0 := by omega
  rw [intRepr, intRepr, if_neg ha0, if_neg hb0] at h
  have := natRepr_inj _ _ h
  omega

/-! ### Cache key (C6): key sorting as a function of the field multiset -/

lemma charListLe_total : ∀ (a b : List Char), charListLe a b = true ∨ charListLe b a = true := by
  intro a
  induction a with
  | nil => intro b; left; rfl
  | cons x xs ih =>
    intro b
    cases b with
    | nil => right; rfl
    | cons y ys =>
      by_cases hxy : x.toNat < y.toNat
      · left
        simp [charListLe, hxy]
      · by_cases hyx : y.toNat < x.toNat
        · right
          simp [charListLe, hyx]
        · rcases ih ys with h | h
          · left
            simp [charListLe, hxy, hyx, h]
          · right
            simp [charListLe, hxy, hyx, h]

lemma charListLe_trans : ∀ (a b c : List Char),
    charListLe a b = true → charListLe b c = true → charListLe a c = true := by
  intro a
  induction a with
  | nil => intro b c _ _; rfl
  | cons x xs ih =>
    intro b c hab hbc
    cases b with
    | nil => exact absurd hab (by simp [charListLe])
    | cons y ys =>
      cases c with
      | nil => exact absurd hbc (by simp [charListLe])
      | cons z zs =>
        rw [charListLe] at hab hbc
        rw [charListLe]
        by_cases hxy : x.toNat < y.toNat
        · by_cases hyz : y.toNat < z.toNat
          · rw [if_pos (by omega)]
          · rw [if_neg hyz] at hbc
            by_cases hzy : z.toNat < y.toNat
            · rw [if_pos hzy] at hbc
              exact absurd hbc (by simp)
            · rw [if_pos (by omega)]
        · by_cases hyx : y.toNat < x.toNat
          · rw [if_neg hxy, if_pos hyx] at hab
            exact absurd hab (by simp)
          · rw [if_neg hxy, if_neg hyx] at hab
            by_cases hyz : y.toNat < z.toNat
            · rw [if_pos (by omega)]
            · rw [if_neg hyz] at hbc
              by_cases hzy : z.toNat < y.toNat
              · rw [if_pos hzy] at hbc
                exact absurd hbc (by simp)
              · rw [if_neg hzy] at hbc
                rw [if_neg (by omega : ¬ x.toNat < z.toNat),
                  if_neg (by omega : ¬ z.toNat < x.toNat)]
                exact ih ys zs hab hbc

lemma charListLe_antisymm : ∀ (a b : List Char),
    charListLe a b = true → charListLe b a = true → a = b := by
  intro a
  induction a with
  | nil =>
    intro b _ hba
    cases b with
    | nil => rfl
    | cons y ys => simp [charListLe] at hba
  | cons x xs ih =>
    intro b hab hba
    cases b with
    | nil => simp [charListLe] at hab
    | cons y ys =>
      rw [charListLe] at hab hba
      by_cases hxy : x.toNat < y.toNat
      · rw [if_neg (by omega), if_pos hxy] at hba
        exact absurd hba (by simp)
      · by_cases hyx : y.toNat < x.toNat
        · rw [if_neg hxy, if_pos hyx] at hab
          exact absurd hab (by simp)
        · have hnat : x.toNat = y.toNat := by omega
          have hx : x = y := Char.ext_iff.mpr (UInt32.ext hnat)
          rw [if_neg hxy, if_neg hyx] at hab
          rw [if_neg hyx, if_neg hxy] at hba
          rw [hx, ih ys hab hba]

lemma strLe_antisymm (s t : String) (h1 : strLe s t = true) (h2 : strLe t s = true) : s = t :=
  String.ext (charListLe_antisymm s.data t.data h1 h2)

instance : IsTotal (String × Json) keyRel :=
  ⟨fun a b => charListLe_total a.1.data b.1.data⟩

instance : IsTrans (String × Json) keyRel :=
  ⟨fun a b c hab hbc => charListLe_trans a.1.data b.1.data c.1.data hab hbc⟩

instance : IsAntisymm (String × Json) keyRelStrict :=
  ⟨fun a b hab hba => by
    have h1 : strLe a.1 b.1 = true ∧ a.1 ≠ b.1 := by
      have := hab
      rw [keyRelStrict, strLt, Bool.and_eq_true] at this
      exact ⟨this.1, by simpa using this.2⟩
    have h2 : strLe b.1 a.1 = true := by
      have := hba
      rw [keyRelStrict, strLt, Bool.and_eq_true] at this
      exact this.1
    exact absurd (strLe_antisymm _ _ h1.1 h2) h1.2⟩

lemma sortFields_sorted_strict (l : List (String × Json))
    (hnd : (l.map Prod.fst).Nodup) :
    List.Sorted keyRelStrict (sortFields l) := by
  have hs : List.Sorted keyRel (sortFields l) := List.sorted_insertionSort keyRel l
  have hperm : (sortFields l).Perm l := List.perm_insertionSort keyRel l
  have hnd2 : ((sortFields l).map Prod.fst).Nodup :=
    ((hperm.map Prod.fst).nodup_iff).mpr hnd
  have hne : List.Pairwise (fun a b : String × Json => a.1 ≠ b.1) (sortFields l) :=
    List.pairwise_map.mp hnd2
  have hcomb := List.Pairwise.and hs hne
  exact hcomb.imp (fun hab => by
    rw [keyRelStrict, strLt, Bool.and_eq_true]
    exact ⟨hab.1, by simpa using hab.2⟩)

/-- Sorting object fields by key depends only on the multiset of fields
(for objects with distinct keys): permuting the fields gives the same
canonical field list. -/
lemma sortFields_eq_of_perm (l1 l2 : List (String × Json)) (hp : l1.Perm l2)
    (hnd : (l1.map Prod.fst).Nodup) : sortFields l1 = sortFields l2 := by
  have hnd2 : (l2.map Prod.fst).Nodup := ((hp.map Prod.fst).nodup_iff).mp hnd
  refine List.eq_of_perm_of_sorted ?_ (sortFields_sorted_strict l1 hnd)
    (sortFields_sorted_strict l2 hnd2)
  exact (List.perm_insertionSort keyRel l1).trans
    (hp.trans (List.perm_insertionSort keyRel l2).symm)

lemma canonList_eq_map (l : List Json) : canonList l = l.map canonicalize := by
  induction l with
  | nil => rfl
  | cons j rest ih => rw [canonList, List.map_cons, ih]

lemma canonFields_eq_map (l : List (String × Json)) :
    canonFields l = l.map (fun kv => (kv.1, canonicalize kv.2)) := by
  induction l with
  | nil => rfl
  | cons kv rest ih =>
    obtain ⟨k, v⟩ := kv
    rw [canonFields, List.map_cons, ih]

lemma dumpsCanon_ne_of_quantity (r1 r2 : RescuePlanRequest) (pre post : List Item)
    (it : Item) (q : Int)
    (h1 : r1.items = pre ++ it :: post)
    (h2 : r2.items = pre ++ { it with quantity := q } :: post)
    (hq1 : 1 ≤ it.quantity) (hq2 : 1 ≤ q) (hne : q ≠ it.quantity)
    (henv : r2.environment = r1.environment)
    (hai : r2.additional_info = r1.additional_info)
    (hu : r2.urgency_level = r1.urgency_level) :
    dumpsCanon (requestData r1) ≠ dumpsCanon (requestData r2) := by
  intro heq
  have hdata := congrArg String.data heq
  rw [dumpsCanon_requestData_decomp, dumpsCanon_requestData_decomp, henv, hai, hu,
    h1, h2, canonList_eq_map, canonList_eq_map] at hdata
  simp only [List.map_append, List.map_cons] at hdata
  rw [serializeList_decomp, serializeList_decomp,
    serialize_canonItem_decomp, serialize_canonItem_decomp] at hdata
  have hpre : itemPrefixData { it with quantity := q } = itemPrefixData it := rfl
  have hsuf : itemSuffixData { it with quantity := q } = itemSuffixData it := rfl
  have hqq : ({ it with quantity := q } : Item).quantity = q := rfl
  rw [hpre, hsuf, hqq] at hdata
  simp only [List.append_assoc] at hdata
  have h3 := List.append_cancel_left (List.append_cancel_left (List.append_cancel_left hdata))
  have h5 : (intRepr it.quantity).data = (intRepr q).data := List.append_cancel_right h3
  have h6 : intRepr it.quantity = intRepr q := String.ext h5
  exact hne (intRepr_pos_inj _ _ hq2 hq1 h6.symm)

/-- C6: the cache key is a function of the request content only — two
requests agreeing on items, environment, additional info and urgency level
get the same key (the key ignores `contact_info`/`user_id`); the canonical
serialization is invariant under reordering an object's fields (for
distinct keys, as in every dict serialized here); and — because the key is
the hash of a canonical serialization in which the quantity occupies a
fixed slot — changing some item's quantity changes the hashed string, so
any collision-free hash (`md5` is modelled as an injective function on the
strings involved) yields distinct keys. -/
theorem cacheKey_content_and_quantity (md5 : String → String) :
    (∀ (r1 r2 : RescuePlanRequest),
      r1.items = r2.items → r1.environment = r2.environment →
      r1.additional_info = r2.additional_info → r1.urgency_level = r2.urgency_level →
      generateCacheKey md5 r1 = generateCacheKey md5 r2) ∧
    (∀ (l1 l2 : List (String × Json)), l1.Perm l2 → (l1.map Prod.fst).Nodup →
      dumpsCanon (.obj l1) = dumpsCanon (.obj l2)) ∧
    (Function.Injective md5 →
      ∀ (r1 r2 : RescuePlanRequest) (pre post : List Item) (it : Item) (q : Int),
      r1.items = pre ++ it :: post →
      r2.items = pre ++ { it with quantity := q } :: post →
      1 ≤ it.quantity → 1 ≤ q → q ≠ it.quantity →
      r2.environment = r1.environment → r2.additional_info = r1.additional_info →
      r2.urgency_level = r1.urgency_level →
      generateCacheKey md5 r1 ≠ generateCacheKey md5 r2) := by
  refine ⟨?_, ?_, ?_⟩
  · intro r1 r2 hi he ha hu
    simp [generateCacheKey, requestData, hi, he, ha, hu]
  · intro l1 l2 hp hnd
    have hperm2 : (canonFields l1).Perm (canonFields l2) := by
      rw [canonFields_eq_map, canonFields_eq_map]
      exact hp.map _
    have hnd2 : ((canonFields l1).map Prod.fst).Nodup := by
      rw [canonFields_eq_map]
      have hmm : (l1.map (fun kv => (kv.1, canonicalize kv.2))).map Prod.fst
          = l1.map Prod.fst := by
        rw [List.map_map]
        rfl
      rw [hmm]
      exact hnd
    show serialize (canonicalize (.obj l1)) = serialize (canonicalize (.obj l2))
    rw [show canonicalize (Json.obj l1) = .obj (sortFields (canonFields l1)) from rfl,
      show canonicalize (Json.obj l2) = .obj (sortFields (canonFields l2)) from rfl,
      sortFields_eq_of_perm _ _ hperm2 hnd2]
  · intro hinj r1 r2 pre post it q h1 h2 hq1 hq2 hne henv hai hu hkey
    have hmd : md5 (dumpsCanon (requestData r1)) = md5 (dumpsCanon (requestData r2)) := by
      have hdata := congrArg String.data hkey
      rw [generateCacheKey, generateCacheKey, String.data_append, String.data_append] at hdata
      exact String.ext (List.append_cancel_left hdata)
    exact dumpsCanon_ne_of_quantity r1 r2 pre post it q h1 h2 hq1 hq2 hne henv hai hu
      (hinj hmd)

/-- Witness for `cacheKey_content_and_quantity` with `md5 := id`: the key
ignores `contact_info`/`user_id`; swapping two object fields leaves the
canonical dump unchanged; changing the witness item's quantity from 1 to 2
changes the key. -/
theorem cacheKey_content_and_quantity_witness :
    generateCacheKey id witnessRequest = generateCacheKey id witnessRequestVariant ∧
    dumpsCanon (.obj [("b", .null), ("a", .num 1)])
      = dumpsCanon (.obj [("a", .num 1), ("b", .null)]) ∧
    generateCacheKey id witnessRequest ≠ generateCacheKey id witnessRequestQty2 := by
  refine ⟨?_, ?_, ?_⟩
  · exact (cacheKey_content_and_quantity id).1 witnessRequest witnessRequestVariant
      rfl rfl rfl rfl
  · exact (cacheKey_content_and_quantity id).2.1 [("b", .null), ("a", .num 1)]
      [("a", .num 1), ("b", .null)] (List.Perm.swap ("a", Json.num 1) ("b", Json.null) [])
      (by decide)
  · exact (cacheKey_content_and_quantity id).2.2 Function.injective_id
      witnessRequest witnessRequestQty2 [] [] witnessItem 2 rfl rfl
      (by decide) (by decide) (by decide) rfl rfl rfl

/-! ### Knowledge aggregation (C4, C5) -/

/-- C4: knowledge aggregation never fails — for every request and every
combination of lookup outcomes, `_gather_knowledge_context` returns a
`KnowledgeContext` and lets no exception escape (its catch-all handler
folds every internal failure into `KnowledgeContext()`); in particular,
when every knowledge lookup fails or times out, the returned context has
every section empty. -/
theorem gather_total_and_failure_tolerant (items : List Item) (o : GatherOutcomes) :
    (∃ c, gatherTry items o = .ok c ∧ gatherKnowledgeContext items o = c) ∧
    (AllLookupsFail o → gatherKnowledgeContext items o = KnowledgeContext.empty) := by
  constructor
  · cases h : gatherBody items o with
    | ok c =>
      exact ⟨c, by simp [gatherTry, h], by simp [gatherKnowledgeContext, h]⟩
    | error e =>
      exact ⟨KnowledgeContext.empty, by simp [gatherTry, h],
        by simp [gatherKnowledgeContext, h]⟩
  · rintro ⟨h1, h2, h3, h4, h5⟩
    have hb : gatherBody items o = .error () := by
      rw [gatherBody, h4]
    simp [gatherKnowledgeContext, hb]

/-- Witness for `gather_total_and_failure_tolerant`: with one item and
every lookup failing, the context is the empty one. -/
theorem gather_total_and_failure_tolerant_witness :
    AllLookupsFail allFailOutcomes ∧
    gatherKnowledgeContext [witnessItem] allFailOutcomes = KnowledgeContext.empty := by
  have hall : AllLookupsFail allFailOutcomes :=
    ⟨fun _ => rfl, fun _ => rfl, rfl, rfl, fun _ => rfl⟩
  exact ⟨hall, (gather_total_and_failure_tolerant [witnessItem] allFailOutcomes).2 hall⟩

/-- C5 counterexample: with a successful material lookup, a successful
environment lookup and a *raising* procedures lookup, the returned context
is entirely empty — the successful sibling lookups are discarded, not
merged; the same outcomes with a non-raising (unsuccessful) procedures
response do keep the sibling results. -/
theorem procedures_failure_wipes_context :
    gatherKnowledgeContext [witnessItem] procRaiseOutcomes = KnowledgeContext.empty ∧
    (gatherKnowledgeContext [witnessItem] procRaiseOutcomes).material_knowledge = [] ∧
    (gatherKnowledgeContext [witnessItem] procFailOutcomes).material_knowledge
      = [("木质", .str "木质燃烧特性")] ∧
    (gatherKnowledgeContext [witnessItem] procFailOutcomes).environment_knowledge
      = [("area", .str "住宅")] := by
  exact ⟨rfl, rfl, rfl, rfl⟩

lemma mergeMaterials_noSuccess (mats : Nat → Json)
    (h : ∀ j, mats j = .obj [("success", .bool false)]) :
    ∀ (i : Nat) (items : List Item) (acc : List (String × Json)),
    mergeMaterialsAux mats i items acc = .ok acc := by
  intro i items
  induction items generalizing i with
  | nil => intro acc; rfl
  | cons it rest ih =>
    intro acc
    rw [mergeMaterialsAux, h i]
    exact ih (i + 1) acc

lemma ragSection_allRaise (ragf : Nat → CallOut) (h : ∀ j, ragf j = .raise) :
    ∀ (i n : Nat) (acc : List Json), ragSectionAux ragf i n acc = .ok acc := by
  intro i n
  induction n generalizing i with
  | zero => intro acc; rfl
  | succ n ih =>
    intro acc
    rw [ragSectionAux, h i]
    exact ih (i + 1) acc

/-- C5 (amended): when the (unguarded) procedures task does not raise and
the four merges succeed, the context consists of exactly the four
sections, each computed by a function of only its own lookups' outcomes —
so a failing lookup affects only its own section: a failed environment
lookup leaves the environment section empty, all-failed material lookups
leave the material section empty, all-failed retrieval calls leave the RAG
section empty, and the sibling sections are still merged.  (When the
procedures task raises, the whole context is returned empty instead — see
the counterexample.) -/
theorem gather_partial_failure_isolation (items : List Item) (o : GatherOutcomes)
    (p : Json) (mat env : List (String × Json)) (procs rag : List Json)
    (hp : o.procedures = .ret p)
    (hm : mergeMaterialsAux (materialResult o) 0 items [] = .ok mat)
    (he : envSectionE (envResult o) = .ok env)
    (hpr : procSectionE p = .ok procs)
    (hr : ragSectionAux o.rag 0 items.length [] = .ok rag) :
    gatherKnowledgeContext items o =
      { material_knowledge := mat, environment_knowledge := env,
        rescue_procedures := procs, rag_context := rag,
        total_context_size := sectionSize mat env procs rag } ∧
    (∀ o2 : GatherOutcomes, o2.matPrimary = o.matPrimary → o2.matFallback = o.matFallback →
      mergeMaterialsAux (materialResult o2) 0 items [] = .ok mat) ∧
    (∀ o2 : GatherOutcomes, o2.env = o.env → envSectionE (envResult o2) = .ok env) ∧
    (∀ o2 : GatherOutcomes, o2.rag = o.rag →
      ragSectionAux o2.rag 0 items.length [] = .ok rag) ∧
    (o.env = .raise → env = []) ∧
    ((∀ j, o.matPrimary j = .raise) → (∀ j, o.matFallback j = .raise) → mat = []) ∧
    ((∀ j, o.rag j = .raise) → rag = []) := by
  refine ⟨?_, ?_, ?_, ?_, ?_, ?_, ?_⟩
  · simp only [gatherKnowledgeContext, gatherBody, hp, hm, he, hpr, hr]
  · intro o2 h1 h2
    have hres : materialResult o2 = materialResult o := by
      funext i
      rw [materialResult, materialResult, h1, h2]
    rw [hres]
    exact hm
  · intro o2 h1
    have hres : envResult o2 = envResult o := by
      rw [envResult, envResult, h1]
    rw [hres]
    exact he
  · intro o2 h1
    rw [h1]
    exact hr
  · intro h1
    have h2 : envSectionE (envResult o) = .ok [] := by
      rw [show envResult o = .obj [("success", .bool false)] by rw [envResult, h1]]
      rfl
    rw [he] at h2
    exact Except.ok.inj h2
  · intro h1 h2
    have hres : materialResult o = fun _ => .obj [("success", .bool false)] := by
      funext j
      rw [materialResult, h1 j, h2 j]
    rw [hres] at hm
    have h3 := mergeMaterials_noSuccess (fun _ => .obj [("success", .bool false)])
      (fun _ => rfl) 0 items []
    rw [hm] at h3
    exact Except.ok.inj h3
  · intro h1
    have h3 := ragSection_allRaise o.rag h1 0 items.length []
    rw [hr] at h3
    exact Except.ok.inj h3

/-- Witness for `gather_partial_failure_isolation`: one item, successful
material and environment lookups, an unsuccessful (non-raising) procedures
response, failed retrieval calls. -/
theorem gather_partial_failure_isolation_witness :
    gatherKnowledgeContext [witnessItem] procFailOutcomes =
      { material_knowledge := [("木质", .str "木质燃烧特性")],
        environment_knowledge := [("area", .str "住宅")],
        rescue_procedures := [], rag_context := [],
        total_context_size :=
          sectionSize [("木质", .str "木质燃烧特性")] [("area", .str "住宅")] [] [] } := by
  exact (gather_partial_failure_isolation [witnessItem] procFailOutcomes
    (.obj [("success", .bool false)])
    [("木质", .str "木质燃烧特性")] [("area", .str "住宅")] [] []
    rfl rfl rfl rfl rfl).1

/-! ### The cache latch (C7) -/

/-- C7: `cache_enabled` is a one-way latch: a disabled cache short-circuits
both operations without issuing a cache-service request; any raising
operation latches the flag to `False`; no operation ever turns the flag
back on; and from a disabled state, every subsequent operation of the
process leaves it disabled and issues no request. -/
theorem cacheEnabled_one_way_latch :
    (∀ decode out, getCachedResult decode out false = (none, false, false)) ∧
    (∀ out, setCachedResult out false = (false, false)) ∧
    (∀ decode en, (getCachedResult decode .raise en).2.1 = false) ∧
    (∀ en, (setCachedResult .raise en).1 = false) ∧
    (∀ decode out en, (getCachedResult decode out en).2.1 = true → en = true) ∧
    (∀ out en, (setCachedResult out en).1 = true → en = true) ∧
    (∀ ops, runCacheOps false ops = (false, ops.map (fun _ => false))) := by
  refine ⟨fun decode out => rfl, fun out => rfl, ?_, ?_, ?_, ?_, ?_⟩
  · intro decode en
    cases en <;> rfl
  · intro en
    cases en <;> rfl
  · intro decode out en h
    cases en with
    | true => rfl
    | false => simp [getCachedResult] at h
  · intro out en h
    cases en with
    | true => rfl
    | false => simp [setCachedResult] at h
  · intro ops
    induction ops with
    | nil => rfl
    | cons op rest ih =>
      cases op with
      | get out decode => simp [runCacheOps, getCachedResult, ih]
      | set out => simp [runCacheOps, setCachedResult, ih]

/-- Witness for `cacheEnabled_one_way_latch`: concrete evaluations,
including discharging the monotonicity hypotheses at an enabled cache. -/
theorem cacheEnabled_one_way_latch_witness :
    getCachedResult (fun _ => .error ()) .raise false = (none, false, false) ∧
    runCacheOps false [CacheOp.get .raise (fun _ => .error ()), CacheOp.set (.ret .null)]
      = (false, [false, false]) ∧
    (true : Bool) = true := by
  refine ⟨cacheEnabled_one_way_latch.1 (fun _ => .error ()) .raise, ?_, ?_⟩
  · have h := cacheEnabled_one_way_latch.2.2.2.2.2.2
      [CacheOp.get .raise (fun _ => .error ()), CacheOp.set (.ret .null)]
    simpa using h
  · exact cacheEnabled_one_way_latch.2.2.2.2.1 (fun _ => .error ())
      (.ret (.obj [])) true rfl

/-! ### The coordinator (C1) -/

lemma createFallback_ok (r : RescuePlanRequest) :
    ∃ plan, createFallbackRescuePlan r = .ok plan := by
  cases harea : r.environment.area <;>
    · simp only [createFallbackRescuePlan, harea]
      exact ⟨_, rfl⟩

/-- C1: for every request that passes validation, `generate_rescue_plan`
returns a `RescuePlan` whatever the outcomes of the cache lookup, the
knowledge aggregation, the generation call, the response parsing and the
cache write — no exception other than `ValidationError` can reach the
caller. -/
theorem generateRescuePlan_total (md5 : String → String) (o : GenerateOracle)
    (r : RescuePlanRequest) (en : Bool) (h : validateRequest r = .ok ()) :
    ∃ plan en2, generateRescuePlan md5 o r en = (.ok plan, en2) := by
  rw [generateRescuePlan, h]
  cases hget : (getCachedResult o.cacheDecode o.cacheGet en).1 with
  | some plan =>
    exact ⟨plan, (getCachedResult o.cacheDecode o.cacheGet en).2.1, by simp [hget]⟩
  | none =>
    cases htry : tryGenerate o r (getCachedResult o.cacheDecode o.cacheGet en).2.1 with
    | ok pe => exact ⟨pe.1, pe.2, by simp [hget, htry]⟩
    | error e =>
      obtain ⟨plan, hplan⟩ := createFallback_ok r
      exact ⟨plan, (getCachedResult o.cacheDecode o.cacheGet en).2.1,
        by simp [hget, htry, hplan]⟩

/-- Witness for `generateRescuePlan_total`: the witness request with every
service call failing still yields a plan. -/
theorem generateRescuePlan_total_witness :
    validateRequest witnessRequest = .ok () ∧
    ∃ plan en2, generateRescuePlan id allFailOracle witnessRequest true = (.ok plan, en2) :=
  ⟨rfl, generateRescuePlan_total id allFailOracle witnessRequest true rfl⟩

/-! ### The response parser (C8) -/

lemma mkRescueStep_ok_number (n : Nat) (d : String) (e w : List String)
    (t : Option Nat) (s : RescueStep) (h : mkRescueStep n d e w t = .ok s) :
    s.step_number = n := by
  rw [mkRescueStep] at h
  split at h
  · injection h with h2
    subst h2
    rfl
  · exact absurd h (by simp)

lemma mkRescuePlan_ok (title : String) (p : PriorityLevel) (steps : List RescueStep)
    (el w : List String) (d : Nat) (plan : RescuePlan)
    (h : mkRescuePlan title p steps el w d = .ok plan) :
    plan.steps = steps ∧
    steps.map (fun s => s.step_number) = List.range' 1 steps.length ∧
    steps ≠ [] := by
  rw [mkRescuePlan] at h
  split at h
  · rename_i hc
    injection h with h2
    subst h2
    exact ⟨rfl, hc.2.2.2.2.1, hc.2.2.2.1⟩
  · exact absurd h (by simp)

lemma processLine_nonheader (st : ParseState) (line : String) (st2 : ParseState)
    (hdr : matchStepHeader line = none) (h : processLine st line = .ok st2) :
    st2.steps = st.steps ∧ st2.counter = st.counter ∧
    ((st.cur = none ∧ st2.cur = none) ∨
      ∃ c c2, st.cur = some c ∧ st2.cur = some c2 ∧ c2.step_number = c.step_number) := by
  obtain ⟨sSteps, sCur, sCounter, sSec⟩ := st
  rw [processLine, hdr] at h
  cases sCur with
  | none =>
    injection h with h2
    subst h2
    exact ⟨rfl, rfl, Or.inl ⟨rfl, rfl⟩⟩
  | some cur =>
    dsimp only at h
    cases hm1 : matchDesc line with
    | some rest =>
      rw [hm1] at h
      injection h with h2
      subst h2
      refine ⟨rfl, rfl, Or.inr ⟨cur, _, rfl, rfl, ?_⟩⟩
      split <;> rfl
    | none =>
    rw [hm1] at h
    cases hm2 : matchFieldOpt "所需设备" line with
    | some rest =>
      rw [hm2] at h
      injection h with h2
      subst h2
      refine ⟨rfl, rfl, Or.inr ⟨cur, _, rfl, rfl, ?_⟩⟩
      split <;> rfl
    | none =>
    rw [hm2] at h
    cases hm3 : matchFieldOpt "注意事项" line with
    | some rest =>
      rw [hm3] at h
      injection h with h2
      subst h2
      refine ⟨rfl, rfl, Or.inr ⟨cur, _, rfl, rfl, ?_⟩⟩
      split <;> rfl
    | none =>
    rw [hm3] at h
    cases hm4 : matchFieldOpt "预计时间" line with
    | some rest =>
      rw [hm4] at h
      injection h with h2
      subst h2
      refine ⟨rfl, rfl, Or.inr ⟨cur, _, rfl, rfl, ?_⟩⟩
      split <;> first | rfl | (split <;> rfl)
    | none =>
    rw [hm4] at h
    cases hb : startsDashBullet line with
    | false =>
      simp only [hb, Bool.false_eq_true, reduceIte] at h
      injection h with h2
      subst h2
      exact ⟨rfl, rfl, Or.inr ⟨cur, cur, rfl, rfl, rfl⟩⟩
    | true =>
      simp only [hb, reduceIte] at h
      cases sSec with
      | none =>
        injection h with h2
        subst h2
        exact ⟨rfl, rfl, Or.inr ⟨cur, cur, rfl, rfl, rfl⟩⟩
      | some sk =>
        cases sk with
        | description =>
          injection h with h2
          subst h2
          exact ⟨rfl, rfl, Or.inr ⟨cur, cur, rfl, rfl, rfl⟩⟩
        | time =>
          injection h with h2
          subst h2
          exact ⟨rfl, rfl, Or.inr ⟨cur, cur, rfl, rfl, rfl⟩⟩
        | equipment =>
          dsimp only at h
          split at h
          · injection h with h2
            subst h2
            exact ⟨rfl, rfl, Or.inr ⟨cur, _, rfl, rfl, rfl⟩⟩
          · injection h with h2
            subst h2
            exact ⟨rfl, rfl, Or.inr ⟨cur, cur, rfl, rfl, rfl⟩⟩
        | warnings =>
          dsimp only at h
          split at h
          · injection h with h2
            subst h2
            exact ⟨rfl, rfl, Or.inr ⟨cur, _, rfl, rfl, rfl⟩⟩
          · injection h with h2
            subst h2
            exact ⟨rfl, rfl, Or.inr ⟨cur, cur, rfl, rfl, rfl⟩⟩

lemma range'_one_concat (n : Nat) :
    List.range' 1 (n + 1) = List.range' 1 n ++ [n + 1] := by
  have h : List.range' 1 (n + 1) 1 = List.range' 1 n 1 ++ [1 + 1 * n] :=
    List.range'_concat 1 n
  simpa [Nat.add_comm] using h

lemma processLine_header_inv (st : ParseState) (line title : String) (st2 : ParseState)
    (hdr : matchStepHeader line = some title)
    (h : processLine st line = .ok st2) (hinv : StateInv st) : StateInv st2 := by
  obtain ⟨sSteps, sCur, sCounter, sSec⟩ := st
  obtain ⟨h1, h2, h3⟩ := hinv
  dsimp only at h1 h2 h3
  rw [processLine, hdr] at h
  cases sCur with
  | none =>
    dsimp only at h h3
    cases hmk : mkRescueStep sCounter (pyStrip title) [] [] (some 5) with
    | error e =>
      rw [hmk] at h
      exact absurd h (by simp)
    | ok s =>
      rw [hmk] at h
      injection h with h4
      subst h4
      have hs := mkRescueStep_ok_number _ _ _ _ _ _ hmk
      refine ⟨h1, ?_, ?_⟩
      · intro s2 hs2
        injection hs2 with hs3
        subst hs3
        dsimp only
        omega
      · dsimp only
        omega
  | some c =>
    dsimp only at h h3
    have hc := h2 c rfl
    cases hmk : mkRescueStep sCounter (pyStrip title) [] [] (some 5) with
    | error e =>
      rw [hmk] at h
      exact absurd h (by simp)
    | ok s =>
      rw [hmk] at h
      injection h with h4
      subst h4
      have hs := mkRescueStep_ok_number _ _ _ _ _ _ hmk
      refine ⟨?_, ?_, ?_⟩
      · dsimp only
        rw [List.map_append, h1, List.map_cons, List.map_nil, hc, List.length_append,
          List.length_cons, List.length_nil, range'_one_concat]
      · intro s2 hs2
        injection hs2 with hs3
        subst hs3
        dsimp only
        rw [List.length_append, List.length_cons, List.length_nil]
        omega
      · dsimp only
        rw [List.length_append, List.length_cons, List.length_nil]
        omega

lemma processLines_inv : ∀ (lines : List String) (st st2 : ParseState),
    processLines st lines = .ok st2 → StateInv st → StateInv st2 := by
  intro lines
  induction lines with
  | nil =>
    intro st st2 h hinv
    injection h with h2
    subst h2
    exact hinv
  | cons l rest ih =>
    intro st st2 h hinv
    rw [processLines] at h
    cases hpl : processLine st l with
    | error e =>
      rw [hpl] at h
      exact absurd h (by simp)
    | ok stm =>
      rw [hpl] at h
      refine ih stm st2 h ?_
      cases hdr : matchStepHeader l with
      | some t => exact processLine_header_inv st l t stm hdr hpl hinv
      | none =>
        obtain ⟨e1, e2, e3⟩ := processLine_nonheader st l stm hdr hpl
        obtain ⟨h1, h2, h3⟩ := hinv
        rcases e3 with ⟨hn1, hn2⟩ | ⟨c, c2, hc1, hc2, hc3⟩
        · refine ⟨by rw [e1]; exact h1, ?_, ?_⟩
          · intro s hs
            rw [hn2] at hs
            exact absurd hs (by simp)
          · rw [e2, e1, hn2, h3, hn1]
        · refine ⟨by rw [e1]; exact h1, ?_, ?_⟩
          · intro s hs
            rw [hc2] at hs
            injection hs with hs2
            subst hs2
            rw [hc3, e1]
            exact h2 c hc1
          · rw [e2, e1, hc2, h3, hc1]

lemma flushSteps_contiguous (st : ParseState) (hinv : StateInv st) :
    (flushSteps st).map (fun s => s.step_number) = List.range' 1 (flushSteps st).length := by
  obtain ⟨h1, h2, h3⟩ := hinv
  rw [flushSteps]
  cases hcur : st.cur with
  | none => exact h1
  | some s =>
    have hs := h2 s hcur
    rw [List.map_append, h1, List.map_cons, List.map_nil, hs, List.length_append,
      List.length_cons, List.length_nil, range'_one_concat]

lemma processLines_noHeader : ∀ (lines : List String),
    (∀ l ∈ lines, matchStepHeader l = none) →
    processLines ParseState.init lines = .ok ParseState.init := by
  intro lines
  induction lines with
  | nil => intro _; rfl
  | cons l rest ih =>
    intro h
    rw [processLines]
    have hpl : processLine ParseState.init l = .ok ParseState.init := by
      rw [processLine, h l (by simp)]
      rfl
    rw [hpl]
    exact ih (fun x hx => h x (by simp [hx]))

/-- C8: for every input text, `_parse_rescue_plan_response` returns a plan
whose steps are numbered contiguously `1..N` with `N ≥ 1` — the numbers
come from the parser's own monotonically increasing counter (the loop
invariant, third conjunct), not from the numerals in the text; and when no
line of the input matches the step-header pattern, the returned steps are
exactly the two-step generic plan (assess scene / execute rescue). -/
theorem parseRescuePlan_contiguous_steps (response urgency : String) :
    ((parseRescuePlanResponse response urgency).steps.map fun s => s.step_number)
      = List.range' 1 (parseRescuePlanResponse response urgency).steps.length ∧
    1 ≤ (parseRescuePlanResponse response urgency).steps.length ∧
    (∀ st, processLines ParseState.init (parseLines response) = .ok st →
      (flushSteps st).map (fun s => s.step_number)
        = List.range' 1 (flushSteps st).length) ∧
    ((∀ l ∈ parseLines response, matchStepHeader l = none) →
      (parseRescuePlanResponse response urgency).steps = defaultSteps) := by
  have hinit : StateInv ParseState.init :=
    ⟨rfl, by intro s hs; exact absurd hs (by simp [ParseState.init]), rfl⟩
  have hmain : ∀ p, parseBody response urgency = .ok p →
      (p.steps.map (fun s => s.step_number) = List.range' 1 p.steps.length ∧ p.steps ≠ []) := by
    intro p hp
    rw [parseBody] at hp
    cases hpl : processLines ParseState.init (parseLines response) with
    | error e =>
      rw [hpl] at hp
      exact absurd hp (by simp)
    | ok st =>
      rw [hpl] at hp
      dsimp only at hp
      obtain ⟨e1, e2, e3⟩ := mkRescuePlan_ok _ _ _ _ _ _ _ hp
      rw [e1]
      exact ⟨e2, e3⟩
  refine ⟨?_, ?_, ?_, ?_⟩
  · cases hb : parseBody response urgency with
    | error e =>
      simp only [parseRescuePlanResponse, hb]
      decide
    | ok p =>
      simp only [parseRescuePlanResponse, hb]
      exact (hmain p hb).1
  · cases hb : parseBody response urgency with
    | error e => simp [parseRescuePlanResponse, hb, defaultParsePlan, defaultSteps]
    | ok p =>
      simp only [parseRescuePlanResponse, hb]
      have := (hmain p hb).2
      cases hps : p.steps with
      | nil => exact absurd hps this
      | cons a l => simp [hps]
  · intro st hst
    exact flushSteps_contiguous st (processLines_inv _ _ _ hst hinit)
  · intro hnone
    have hpl := processLines_noHeader _ hnone
    rw [parseRescuePlanResponse, parseBody, hpl]
    show (match mkRescuePlan (extractTitle (parseLines response)) (parserPriority urgency)
        defaultSteps
        (pyListSet (defaultSteps.flatMap fun s => s.equipment))
        (pyListSet (defaultSteps.flatMap fun s => s.warnings)) 35 with
      | .ok p => p
      | .error _ => defaultParsePlan).steps = defaultSteps
    cases hmk : mkRescuePlan (extractTitle (parseLines response)) (parserPriority urgency)
        defaultSteps
        (pyListSet (defaultSteps.flatMap fun s => s.equipment))
        (pyListSet (defaultSteps.flatMap fun s => s.warnings)) 35 with
    | error e => simp [hmk, defaultParsePlan]
    | ok p =>
      simp only [hmk]
      exact (mkRescuePlan_ok _ _ _ _ _ _ _ hmk).1

/-- Witness for `parseRescuePlan_contiguous_steps`: the sample response's
headers carry the numerals 一 and 9, yet the returned steps are numbered
1 and 2; the loop invariant instance is checked on the concrete final
state; and a headerless input yields the two generic steps. -/
theorem parseRescuePlan_contiguous_steps_witness :
    (parseRescuePlanResponse sampleResponse "中").steps.map (fun s => s.step_number)
      = [1, 2] ∧
    1 ≤ (parseRescuePlanResponse sampleResponse "中").steps.length ∧
    (flushSteps
      { steps := [{ step_number := 1, description := "评估火情", equipment := ["灭火器"],
                    warnings := [], estimated_time := some 5 }],
        cur := some { step_number := 2, description := "组织疏散", equipment := [],
                      warnings := ["保持冷静"], estimated_time := some 5 },
        counter := 3, curSection := some .warnings }).map (fun s => s.step_number)
      = [1, 2] ∧
    (parseRescuePlanResponse noStepResponse "低").steps = defaultSteps := by
  refine ⟨(parseRescuePlan_contiguous_steps sampleResponse "中").1.trans (by decide),
    (parseRescuePlan_contiguous_steps sampleResponse "中").2.1,
    ((parseRescuePlan_contiguous_steps sampleResponse "中").2.2.1
      { steps := [{ step_number := 1, description := "评估火情", equipment := ["灭火器"],
                    warnings := [], estimated_time := some 5 }],
        cur := some { step_number := 2, description := "组织疏散", equipment := [],
                      warnings := ["保持冷静"], estimated_time := some 5 },
        counter := 3, curSection := some .warnings } rfl).trans (by decide),
    (parseRescuePlan_contiguous_steps noStepResponse "低").2.2.2 (by decide)⟩

end FireEmergency
